/-
Verification of the crowbar discovery engine (src/marcos/discovery_engine.py)
against its natural-language specification.

Shallow embedding notes:
* Python floats are modelled as ℝ for the two closed-form probability
  formulas (which use `math.log`), and as ℚ everywhere the source only
  performs field arithmetic and comparisons (estimator, signal strengths,
  failure rates).
* Python dicts keyed by strings are modelled as insertion-ordered
  association lists; `d[k] = v` updates the value in place when the key is
  present and appends otherwise, exactly like a Python dict.
* `uuid.uuid4()[:8]` identifiers are modelled by a fresh-name counter that
  is threaded through every constructor call that draws an id; this keeps
  the only property the source relies on (freshness/uniqueness).
* `datetime` fields (`created_at`, `last_updated`, timestamps) carry no
  information used by any code path and are omitted.
* Exceptions (`raise ValueError`) are modelled with `Except String`.
-/
import Mathlib

namespace Crowbar

/-- The eight angle categories (`class AngleCategory(Enum)`). -/
inductive AngleCategory where
  | temporal
  | structural
  | relational
  | semantic
  | meta
  | source
  | technical
  | inverse
deriving DecidableEq, Repr

/-- Source `list(AngleCategory)`: the enum members in declaration order. -/
def allCategories : List AngleCategory :=
  [.temporal, .structural, .relational, .semantic, .meta, .source, .technical, .inverse]

/-- Source `AngleCategory.value` (the enum's string payload). -/
def AngleCategory.value : AngleCategory → String
  | .temporal => "temporal"
  | .structural => "structural"
  | .relational => "relational"
  | .semantic => "semantic"
  | .meta => "meta"
  | .source => "source"
  | .technical => "technical"
  | .inverse => "inverse"

/-- Source `class DiscoveryState(Enum)`. -/
inductive DiscoveryState where
  | initialized
  | running
  | paused
  | solved
  | exhausted
deriving DecidableEq, Repr

/-- Source `@dataclass Angle` (creation timestamp omitted, see header). -/
structure Angle where
  id : String
  category : AngleCategory
  description : String
  hypothesis : String
  method : String
  parent_id : Option String
deriving DecidableEq, Repr

/-- Source `@dataclass AngleResult` (artifacts map, execution time and timestamp
omitted: no code path reads them). -/
structure AngleResult where
  angle : Angle
  has_signal : Bool
  signal_strength : ℚ
  findings : List String
  error : Option String
deriving DecidableEq, Repr

/-- Source `AngleResult.is_discovery`: `has_signal and signal_strength >= 0.3`. -/
def AngleResult.is_discovery (r : AngleResult) : Bool :=
  r.has_signal && decide ((3 : ℚ)/10 ≤ r.signal_strength)

/-- Source `@dataclass Discovery` (creation timestamp omitted). -/
structure Discovery where
  id : String
  title : String
  description : String
  confidence : ℚ
  source_angles : List String
  implications : List String
  next_questions : List String
deriving DecidableEq, Repr

/-- Source `@dataclass ProbabilityLog` (timestamp omitted; the reasoning string and
factor map are carried by the estimator in the source only for logging and
are dropped here; `target_confidence` keeps the source's float type as ℝ). -/
structure ProbabilityLog where
  loop_iteration : ℕ
  estimated_p : ℚ
  target_confidence : ℝ
  calculated_n : ℤ

/-- Python dict assignment `d[k] = v` on an insertion-ordered association
list: update in place when the key exists, append otherwise. -/
def dictInsert {α : Type} (d : List (String × α)) (k : String) (v : α) :
    List (String × α) :=
  if (d.map Prod.fst).contains k then
    d.map (fun p => if p.1 = k then (k, v) else p)
  else d ++ [(k, v)]

/-- Python `d.get(k)` / `k in d` support: first value stored under `k`. -/
def assocLookup {α : Type} (k : String) : List (String × α) → Option α
  | [] => none
  | (k', v) :: rest => if k' = k then some v else assocLookup k rest

/-- Source `class KnowledgeGraph` (timestamps omitted).  `domain_knowledge` values
are only ever the problem string in the source, so the open `Any` map is
modelled as a string map. -/
structure KnowledgeGraph where
  angles : List (String × Angle)
  results : List (String × AngleResult)
  discoveries : List (String × Discovery)
  failed_approaches : List String
  domain_knowledge : List (String × String)
  connections : List (String × String × String)
deriving DecidableEq, Repr

/-- Source `KnowledgeGraph.__init__`. -/
def KnowledgeGraph.empty : KnowledgeGraph :=
  { angles := [], results := [], discoveries := [], failed_approaches := []
    domain_knowledge := [], connections := [] }

/-- Source `KnowledgeGraph.add_angle`. -/
def KnowledgeGraph.add_angle (g : KnowledgeGraph) (a : Angle) : KnowledgeGraph :=
  { g with angles := dictInsert g.angles a.id a }

/-- Source `KnowledgeGraph.add_result`: store the result under the angle's id and,
when it has no signal, append the angle id to `failed_approaches`. -/
def KnowledgeGraph.add_result (g : KnowledgeGraph) (r : AngleResult) : KnowledgeGraph :=
  { g with
    results := dictInsert g.results r.angle.id r
    failed_approaches :=
      if r.has_signal then g.failed_approaches
      else g.failed_approaches ++ [r.angle.id] }

/-- Source `KnowledgeGraph.add_discovery`. -/
def KnowledgeGraph.add_discovery (g : KnowledgeGraph) (d : Discovery) : KnowledgeGraph :=
  { g with discoveries := dictInsert g.discoveries d.id d }

/-- Source `KnowledgeGraph.add_connection`. -/
def KnowledgeGraph.add_connection (g : KnowledgeGraph) (f t rel : String) :
    KnowledgeGraph :=
  { g with connections := g.connections ++ [(f, t, rel)] }

/-- Source `KnowledgeGraph.merge`: `add_result` over the findings, left to right. -/
def KnowledgeGraph.merge (g : KnowledgeGraph) (findings : List AngleResult) :
    KnowledgeGraph :=
  findings.foldl (fun acc r => acc.add_result r) g

/-- Source `KnowledgeGraph.get_successful_angles`. -/
def KnowledgeGraph.get_successful_angles (g : KnowledgeGraph) : List AngleResult :=
  (g.results.map Prod.snd).filter (fun r => r.has_signal)

/-- Source `KnowledgeGraph.get_failed_angles`. -/
def KnowledgeGraph.get_failed_angles (g : KnowledgeGraph) : List AngleResult :=
  (g.results.map Prod.snd).filter (fun r => !r.has_signal)

/-- Source `KnowledgeGraph.get_coverage_by_category`: count of tried angles per
category, recomputed by scanning `angles`. -/
def KnowledgeGraph.get_coverage_by_category (g : KnowledgeGraph)
    (c : AngleCategory) : ℕ :=
  (g.angles.filter (fun p => p.2.category = c)).length

/-- Source `KnowledgeGraph.to_dict` output shape (timestamps omitted).  The
serialization is a field-for-field copy of the graph's contents. -/
structure KnowledgeGraphDict where
  angles : List (String × Angle)
  results : List (String × AngleResult)
  discoveries : List (String × Discovery)
  failed_approaches : List String
  domain_knowledge : List (String × String)
  connections : List (String × String × String)
deriving DecidableEq, Repr

/-- Source `KnowledgeGraph.to_dict`. -/
def KnowledgeGraph.to_dict (g : KnowledgeGraph) : KnowledgeGraphDict :=
  { angles := g.angles, results := g.results, discoveries := g.discoveries
    failed_approaches := g.failed_approaches
    domain_knowledge := g.domain_knowledge, connections := g.connections }

/-! ## ProbabilityEstimator -/

/-- Source `ProbabilityEstimator.NOVELTY_BASE`. -/
def NOVELTY_BASE : List (String × (ℚ × ℚ)) :=
  [("well_studied", (10/100, 25/100)),
   ("partially_explored", (3/100, 10/100)),
   ("completely_novel", (1/100, 3/100))]

/-- Source `ProbabilityEstimator.DATA_MULTIPLIERS`. -/
def DATA_MULTIPLIERS : List (String × ℚ) :=
  [("rich", 15/10), ("moderate", 1), ("sparse", 5/10)]

/-- Source `ProbabilityEstimator.CONSTRAINT_MULTIPLIERS`. -/
def CONSTRAINT_MULTIPLIERS : List (String × ℚ) :=
  [("highly_constrained", 2), ("moderately_constrained", 1), ("wide_open", 5/10)]

/-- Source `ProbabilityEstimator.PRIOR_WORK_ADJUSTMENTS`. -/
def PRIOR_WORK_ADJUSTMENTS : List (String × (ℚ × ℚ)) :=
  [("many_failures", (1/100, 2/100)),
   ("some_attempts", (3/100, 8/100)),
   ("fresh_problem", (5/100, 15/100))]

/-- The value of `estimated_p` in `ProbabilityEstimator.estimate` just
before the clamp line `estimated_p = max(0.001, min(0.5, estimated_p))`:
weighted base, multipliers, then every custom factor applied in order. -/
def estimate_before_clamp (novelty data_availability constraint_level
    prior_work : String) (custom_factors : List (String × ℚ)) : ℚ :=
  let base_range := (assocLookup novelty NOVELTY_BASE).getD (3/100, 10/100)
  let base_p := (base_range.1 + base_range.2) / 2
  let data_mult := (assocLookup data_availability DATA_MULTIPLIERS).getD 1
  let constraint_mult := (assocLookup constraint_level CONSTRAINT_MULTIPLIERS).getD 1
  let prior_range := (assocLookup prior_work PRIOR_WORK_ADJUSTMENTS).getD (3/100, 8/100)
  let prior_factor := (prior_range.1 + prior_range.2) / 2
  let combined_base := base_p * (6/10) + prior_factor * (4/10)
  let estimated_p := combined_base * data_mult * constraint_mult
  custom_factors.foldl (fun acc f => acc * f.2) estimated_p

/-- Source `ProbabilityEstimator.estimate`, returning the estimated `p` (the
appended `ProbabilityLog` carries no data beyond what the engine rebuilds,
and the history append is a side effect on the estimator object; neither
affects any claim). -/
def estimate (novelty data_availability constraint_level prior_work : String)
    (custom_factors : List (String × ℚ)) : ℚ :=
  max (1/1000) (min (1/2)
    (estimate_before_clamp novelty data_availability constraint_level
      prior_work custom_factors))

/-! ## Failure-pattern analysis -/

/-- Return type of `analyze_failure_patterns` (the report dict). -/
structure FailureAnalysis where
  total_failures : ℕ
  failure_rate : ℚ
  failures_by_category : List (String × ℕ)
  worst_performing_category : Option String
  recommendation : String
deriving DecidableEq, Repr

/-- Python `max(keys, key=val)`: first element attaining the maximum value
(later elements replace the current best only when strictly greater). -/
def pyMaxByKey (val : AngleCategory → ℕ) : List AngleCategory → Option AngleCategory
  | [] => none
  | c :: rest => some (rest.foldl (fun best x => if val best < val x then x else best) c)

/-- Source `analyze_failure_patterns`. -/
def analyze_failure_patterns (results : List AngleResult) : FailureAnalysis :=
  let failed := results.filter (fun r => !r.has_signal)
  let category_failures : AngleCategory → ℕ := fun c =>
    (failed.filter (fun r => r.angle.category = c)).length
  let worst_category : Option AngleCategory :=
    if failed.isEmpty then none else pyMaxByKey category_failures allCategories
  let failure_rate : ℚ :=
    if results.isEmpty then 0 else (failed.length : ℚ) / (results.length : ℚ)
  { total_failures := failed.length
    failure_rate := failure_rate
    failures_by_category :=
      allCategories.map (fun c => (c.value, category_failures c))
    worst_performing_category := worst_category.map (fun c => c.value)
    recommendation :=
      if (9 : ℚ)/10 < failure_rate then "Try different categories"
      else "Continue current approach" }

/-! ## Core probability formulas (static methods of `DiscoveryEngine`) -/

/-- Source `DiscoveryEngine.calculate_angles_needed`:
`n = log(1 - target_confidence) / log(1 - p)`, returned as
`max(1, int(math.ceil(n)))`; raises `ValueError` when `p <= 0 or p >= 1`
or `target_confidence <= 0 or target_confidence >= 1`. -/
noncomputable def calculate_angles_needed (p target_confidence : ℝ) :
    Except String ℤ :=
  if p ≤ 0 ∨ 1 ≤ p then
    Except.error "p must be between 0 and 1 (exclusive)"
  else if target_confidence ≤ 0 ∨ 1 ≤ target_confidence then
    Except.error "target_confidence must be between 0 and 1 (exclusive)"
  else
    Except.ok (max 1 ⌈Real.log (1 - target_confidence) / Real.log (1 - p)⌉)

/-- Source `DiscoveryEngine.calculate_breakthrough_probability`:
`1 - (1 - p) ** n`; raises `ValueError` when `p <= 0 or p >= 1` or `n < 1`. -/
noncomputable def calculate_breakthrough_probability (p : ℝ) (n : ℤ) :
    Except String ℝ :=
  if p ≤ 0 ∨ 1 ≤ p then
    Except.error "p must be between 0 and 1 (exclusive)"
  else if n < 1 then
    Except.error "n must be at least 1"
  else
    Except.ok (1 - (1 - p) ^ n.toNat)

/-! ## DefaultAngleGenerator -/

/-- Python `int()` applied to a non-negative-or-negative rational:
truncation toward zero. -/
def pyInt (q : ℚ) : ℤ :=
  if 0 ≤ q then ⌊q⌋ else -⌊-q⌋

/-- Source `DefaultAngleGenerator.CATEGORY_TEMPLATES`. -/
def CATEGORY_TEMPLATES : AngleCategory → List String
  | .temporal =>
     ["Analyze time-based patterns in {problem}",
      "Look for sequences and progressions",
      "Correlate with known events or timelines",
      "Examine frequency distributions over time",
      "Search for periodic or cyclical patterns"]
  | .structural =>
     ["Examine format and encoding structures",
      "Look for nesting and hierarchical patterns",
      "Analyze length and size distributions",
      "Search for delimiters and boundaries",
      "Investigate byte-level patterns"]
  | .relational =>
     ["Map connections to related data sources",
      "Build network graphs of relationships",
      "Find similarities with known patterns",
      "Trace dependencies and references",
      "Cluster by similarity metrics"]
  | .semantic =>
     ["Extract meaning and intent",
      "Analyze language and terminology",
      "Consider cultural context",
      "Examine selection criteria and significance",
      "Look for hidden messages or encodings"]
  | .meta =>
     ["Investigate who created this and why",
      "Look for what's being hidden or obscured",
      "Track what changed and when",
      "Examine metadata and provenance",
      "Analyze the creation process itself"]
  | .source =>
     ["Search for human intelligence sources",
      "Examine archives and historical records",
      "Look for existing tools and solutions",
      "Find communities who've worked on similar problems",
      "Gather domain expert knowledge"]
  | .technical =>
     ["Apply standard algorithms for this domain",
      "Try edge case handling approaches",
      "Combine multiple techniques",
      "Use brute force enumeration where feasible",
      "Apply statistical analysis methods"]
  | .inverse =>
     ["What would make this problem unsolvable?",
      "Which assumptions might be wrong?",
      "What if the problem is misframed?",
      "What constraints might be artificial?",
      "What would disprove our current theory?"]

/-- Source `DefaultAngleGenerator._get_related_categories` (the `.get` fallback to
all categories is unreachable because the table is total). -/
def get_related_categories : AngleCategory → List AngleCategory
  | .temporal => [.temporal, .structural, .meta]
  | .structural => [.structural, .technical, .relational]
  | .relational => [.relational, .semantic, .source]
  | .semantic => [.semantic, .meta, .inverse]
  | .meta => [.meta, .source, .temporal]
  | .technical => [.technical, .structural, .inverse]
  | .source => [.source, .relational, .technical]
  | .inverse => [.inverse, .semantic, .meta]

/-- Stable sort by a natural-number key (Python `sorted(xs, key=...)`):
insertion that keeps earlier elements in front of later equal-key ones. -/
def stableInsertByKey (key : AngleCategory → ℕ) (x : AngleCategory) :
    List AngleCategory → List AngleCategory
  | [] => [x]
  | y :: rest =>
      if key x ≤ key y then x :: y :: rest
      else y :: stableInsertByKey key x rest

/-- Stable sort by key, cf. `stableInsertByKey`. -/
def stableSortByKey (key : AngleCategory → ℕ) :
    List AngleCategory → List AngleCategory
  | [] => []
  | x :: rest => stableInsertByKey key x (stableSortByKey key rest)

/-- One angle built inside `DefaultAngleGenerator.generate`'s inner loop:
`template.format(problem=problem[:100])` etc.; the uuid is drawn from the
fresh-name counter. -/
def mkGeneratedAngle (problem : String) (category : AngleCategory)
    (template : String) (ctr : ℕ) : Angle :=
  { id := toString ctr
    category := category
    description := template.replace "{problem}" (problem.take 100)
    hypothesis := "The " ++ category.value ++
      " perspective may reveal patterns in: " ++ problem.take 50
    method := "Apply " ++ category.value ++ " analysis techniques"
    parent_id := none }

/-- Inner loop of `DefaultAngleGenerator.generate` for one category:
`for j in range(cat_count)`, cycling templates by `j % len(templates)` and
discarding an angle only when its fresh id already occurs in `tried`. -/
def generateForCategory (problem : String) (category : AngleCategory)
    (cat_count : ℕ) : List String → ℕ → (List Angle × List String × ℕ)
  | tried, ctr => go cat_count 0 tried ctr
where
  go : ℕ → ℕ → List String → ℕ → (List Angle × List String × ℕ)
    | 0, _, tried, ctr => ([], tried, ctr)
    | n + 1, j, tried, ctr =>
        let templates := CATEGORY_TEMPLATES category
        let template := templates.getD (j % templates.length) ""
        let angle := mkGeneratedAngle problem category template ctr
        let ctr' := ctr + 1
        if tried.contains angle.id then
          go n (j + 1) tried ctr'
        else
          let (rest, tried', ctr'') := go n (j + 1) (tried ++ [angle.id]) ctr'
          (angle :: rest, tried', ctr'')

/-- Source `DefaultAngleGenerator.generate` (with `categories=None`, as the engine
always calls it): distribute `count` angles over the categories sorted by
current coverage (stable, least covered first), give one extra angle to the
first `count % len(categories)` of them, then truncate to `count`. -/
def defaultGenerate (problem : String) (knowledge : KnowledgeGraph)
    (count : ℕ) (ctr : ℕ) : List Angle × ℕ :=
  let categories := allCategories
  let tried_angle_ids := knowledge.angles.map Prod.fst
  let coverage := knowledge.get_coverage_by_category
  let per_category := max 1 (count / categories.length)
  let remainder := count % categories.length
  let sorted_categories := stableSortByKey coverage categories
  let step := fun (acc : List Angle × List String × ℕ)
      (ic : ℕ × AngleCategory) =>
    let (angles, tried, c) := acc
    let cat_count := per_category + (if ic.1 < remainder then 1 else 0)
    let (newAngles, tried', c') :=
      generateForCategory problem ic.2 cat_count tried c
    (angles ++ newAngles, tried', c')
  let (angles, _, ctr') :=
    sorted_categories.enum.foldl step ([], tried_angle_ids, ctr)
  (angles.take count, ctr')

/-- Source `DefaultAngleGenerator.branch_on_discovery`: `count` follow-up angles
whose categories cycle through the related-categories triple and whose
`parent_id` is the triggering angle's id. -/
def branch_on_discovery (result : AngleResult) (count : ℕ) (ctr : ℕ) :
    List Angle × ℕ :=
  let base_description := result.angle.description
  let category := result.angle.category
  let related_categories := get_related_categories category
  let mk := fun (i : ℕ) (c : ℕ) =>
    let follow_up_category :=
      related_categories.getD (i % related_categories.length) category
    ({ id := toString c
       category := follow_up_category
       description := "Follow up on signal: " ++ base_description.take 50 ++
         " - variation " ++ toString (i + 1)
       hypothesis := "Deeper exploration of " ++ category.value ++ " finding"
       method := "Specialized " ++ follow_up_category.value ++ " analysis"
       parent_id := some result.angle.id } : Angle)
  ((List.range count).map (fun i => mk i (ctr + i)), ctr + count)

/-- The engine's injected angle generator: either the concrete
`DefaultAngleGenerator` or any other `AngleGenerator` implementation,
modelled by its `generate` function (`isinstance(g, DefaultAngleGenerator)`
becomes a match on this sum). -/
inductive GeneratorImpl where
  | defaultGen : GeneratorImpl
  | custom : (String → KnowledgeGraph → ℕ → List Angle) → GeneratorImpl

/-- Dispatch `self.angle_generator.generate(problem, knowledge, count)`;
the fresh-name counter is threaded only through the default generator
(custom implementations are modelled as pure angle producers). -/
def generateDispatch (gen : GeneratorImpl) (problem : String)
    (knowledge : KnowledgeGraph) (count : ℕ) (ctr : ℕ) : List Angle × ℕ :=
  match gen with
  | .defaultGen => defaultGenerate problem knowledge count ctr
  | .custom f => (f problem knowledge count, ctr)

/-! ## DiscoveryEngine -/

/-- The strategies injected into `DiscoveryEngine.__init__` plus the
`max_iterations` field (default 100 in the source, mutable on the object,
so carried here as data). -/
structure EngineCfg where
  angle_generator : GeneratorImpl
  angle_executor : Angle → KnowledgeGraph → AngleResult
  solution_checker : String → List Discovery → Bool
  max_iterations : ℕ

/-- Source `DiscoveryEngine._default_executor`: always returns no signal. -/
def default_executor (angle : Angle) (_knowledge : KnowledgeGraph) : AngleResult :=
  { angle := angle, has_signal := false, signal_strength := 0
    findings := [], error := none }

/-- Source `DiscoveryEngine._default_solution_checker`: never solved. -/
def default_solution_checker (_problem : String) (_discoveries : List Discovery) :
    Bool :=
  false

/-- The checkpoint dict built by `DiscoveryEngine._save_checkpoint`. -/
structure Checkpoint where
  problem : String
  target_confidence : ℝ
  iteration : ℕ
  knowledge : Option KnowledgeGraphDict
  probability_logs : List ProbabilityLog

/-- Step 4 of the loop in `DiscoveryEngine.run` (`for angle in angles:`):
the worklist grows in place when a signalling result branches, and the
`for` statement keeps consuming the appended angles within the same
iteration.  `bf` is fuel consumed only at branch events; the source loops
forever when an executor keeps signalling under the default generator, and
that divergence is modelled as the `Except.error` case. -/
def processWorklist (gen : GeneratorImpl)
    (exec : Angle → KnowledgeGraph → AngleResult) (bf : ℕ)
    (pending : List Angle) (kg : KnowledgeGraph)
    (results : List AngleResult) (ctr : ℕ) :
    Except String (KnowledgeGraph × List AngleResult × ℕ) :=
  match pending with
  | [] => Except.ok (kg, results, ctr)
  | angle :: rest =>
    let kg1 := kg.add_angle angle
    let result := exec angle kg1
    let results1 := results ++ [result]
    let kg2 := kg1.add_result result
    if result.has_signal then
      match gen with
      | .defaultGen =>
        match bf with
        | 0 => Except.error "branch fuel exhausted"
        | bf' + 1 =>
          let branch_count := ((10 : ℤ) + pyInt (result.signal_strength * 10)).toNat
          let (new_angles, ctr') := branch_on_discovery result branch_count ctr
          processWorklist gen exec bf' (rest ++ new_angles) kg2 results1 ctr'
      | .custom _ => processWorklist gen exec bf rest kg2 results1 ctr
    else processWorklist gen exec bf rest kg2 results1 ctr
termination_by (bf, pending.length)

/-- The `Discovery(...)` constructed in step 5 of `DiscoveryEngine.run`
(and in `run_iterator`) from one discovery-grade result. -/
def synthesizeDiscovery (r : AngleResult) (ctr : ℕ) : Discovery × ℕ :=
  ({ id := toString ctr
     title := "Discovery from " ++ r.angle.category.value ++ " analysis"
     description :=
       if r.findings.isEmpty then "Signal detected"
       else String.intercalate "; " r.findings
     confidence := r.signal_strength
     source_angles := [r.angle.id]
     implications := []
     next_questions := [] }, ctr + 1)

/-- Synthesize and register a `Discovery` for every discovery-grade result,
in order (`for result in discoveries:` in both drivers). -/
def synthesizeAll (discoveries : List AngleResult) (kg : KnowledgeGraph)
    (ctr : ℕ) : KnowledgeGraph × List Discovery × ℕ :=
  discoveries.foldl
    (fun acc r =>
      let (d, c') := synthesizeDiscovery r acc.2.2
      (acc.1.add_discovery d, acc.2.1 ++ [d], c'))
    (kg, [], ctr)

/-- The engine's mutable per-run state during `DiscoveryEngine.run`
(including the loop-local qualitative descriptors, which the loop body
reassigns). -/
structure RunSt where
  state : DiscoveryState
  knowledge : KnowledgeGraph
  current_iteration : ℕ
  interrupt_requested : Bool
  checkpoint : Option Checkpoint
  probability_logs : List ProbabilityLog
  all_discoveries : List Discovery
  novelty : String
  data_availability : String
  constraint_level : String
  prior_work : String
  ctr : ℕ

/-- The dictionary returned by `DiscoveryEngine.run`. -/
structure RunReport where
  state : DiscoveryState
  problem : String
  iterations : ℕ
  discoveries : List Discovery
  knowledge : KnowledgeGraph
  probability_logs : List ProbabilityLog
  total_angles_tried : ℕ
  successful_angles : ℕ
  failed_angles : ℕ

/-- The final result compilation at the end of `DiscoveryEngine.run`. -/
def mkReport (problem : String) (st : RunSt) : RunReport :=
  { state := st.state
    problem := problem
    iterations := st.current_iteration
    discoveries := st.all_discoveries
    knowledge := st.knowledge
    probability_logs := st.probability_logs
    total_angles_tried := st.knowledge.angles.length
    successful_angles := st.knowledge.get_successful_angles.length
    failed_angles := st.knowledge.get_failed_angles.length }

/-- Steps 5–9 of one `DiscoveryEngine.run` iteration once the worklist has
been executed: partition the results, synthesize a `Discovery` per
discovery-grade result, check for solution, adjust the qualitative
descriptors, merge.  `Sum.inl st'` means the `while` loop continues with
state `st'`; `Sum.inr st'` means the loop ends (`break` on `SOLVED`, which
skips the final merge). -/
def runBodyAfterWorklist (cfg : EngineCfg) (problem : String) (st : RunSt)
    (kg : KnowledgeGraph) (results : List AngleResult) (ctr2 : ℕ) :
    RunSt ⊕ RunSt :=
  let discoveries := results.filter (fun r => r.is_discovery)
  if discoveries.isEmpty then
    let novelty' :=
      if st.novelty = "well_studied" then "partially_explored"
      else if st.novelty = "partially_explored" then "completely_novel"
      else st.novelty
    Sum.inl { st with
      knowledge := kg.merge results
      novelty := novelty'
      prior_work := "many_failures"
      ctr := ctr2 }
  else
    let (kg', newDiscoveries, ctr3) := synthesizeAll discoveries kg ctr2
    let all' := st.all_discoveries ++ newDiscoveries
    if cfg.solution_checker problem all' then
      Sum.inr { st with
        state := DiscoveryState.solved
        knowledge := kg'
        all_discoveries := all'
        ctr := ctr3 }
    else
      Sum.inl { st with
        knowledge := kg'.merge results
        all_discoveries := all'
        data_availability := "rich"
        ctr := ctr3 }

/-- Steps 3–5 of one `DiscoveryEngine.run` iteration after the angle count
`n` has been computed: log, generate, execute the growing worklist, then
hand over to `runBodyAfterWorklist`.  The call
`calculate_breakthrough_probability(p, n)` at this point in the source
only feeds a log line (its value is discarded and, with `p` in (0,1) and
`n >= 1`, it cannot raise), so it is omitted. -/
def runBodyAfterN (cfg : EngineCfg) (problem : String)
    (target_confidence : ℝ) (bf : ℕ) (st : RunSt) (p : ℚ) (n : ℤ) :
    Except String (RunSt ⊕ RunSt) :=
  let log : ProbabilityLog :=
    { loop_iteration := st.current_iteration, estimated_p := p
      target_confidence := target_confidence, calculated_n := n }
  let st := { st with probability_logs := st.probability_logs ++ [log] }
  let generated :=
    generateDispatch cfg.angle_generator problem st.knowledge n.toNat st.ctr
  match processWorklist cfg.angle_generator cfg.angle_executor bf generated.1
      st.knowledge [] generated.2 with
  | .error e => Except.error e
  | .ok (kg, results, ctr2) =>
    Except.ok (runBodyAfterWorklist cfg problem st kg results ctr2)

/-- The `while self.state == DiscoveryState.RUNNING:` loop of
`DiscoveryEngine.run`.  `fuel` only bounds the recursion: the counter
increments every pass and the ceiling check trips at
`max_iterations + 1`, so `max_iterations + 1` passes always suffice. -/
noncomputable def runLoop (cfg : EngineCfg) (problem : String)
    (target_confidence : ℝ) (bf : ℕ) : ℕ → RunSt → Except String RunSt
  | 0, _ => Except.error "loop fuel exhausted"
  | fuel + 1, st0 =>
    if st0.state ≠ DiscoveryState.running then Except.ok st0
    else
      let st := { st0 with current_iteration := st0.current_iteration + 1 }
      if cfg.max_iterations < st.current_iteration then
        Except.ok { st with state := DiscoveryState.exhausted }
      else if st.interrupt_requested then
        Except.ok { st with
          state := DiscoveryState.paused
          checkpoint := some
            { problem := problem
              target_confidence := target_confidence
              iteration := st.current_iteration
              knowledge := some st.knowledge.to_dict
              probability_logs := st.probability_logs } }
      else
        let p := estimate st.novelty st.data_availability st.constraint_level
          st.prior_work []
        match calculate_angles_needed (p : ℝ) target_confidence with
        | .error e => Except.error e
        | .ok n =>
          match runBodyAfterN cfg problem target_confidence bf st p n with
          | .error e => Except.error e
          | .ok (Sum.inr stFinal) => Except.ok stFinal
          | .ok (Sum.inl st') => runLoop cfg problem target_confidence bf fuel st'

/-- Source `DiscoveryEngine.run` on a freshly constructed engine (whose
`probability_logs` list is empty); `ctr0` is the fresh-name supply. -/
noncomputable def run (cfg : EngineCfg) (problem : String)
    (target_confidence : ℝ)
    (novelty data_availability constraint_level prior_work : String)
    (initial_knowledge : Option KnowledgeGraph) (bf : ℕ) (ctr0 : ℕ) :
    Except String RunReport :=
  let kgInit := initial_knowledge.getD KnowledgeGraph.empty
  let kg0 := { kgInit with
    domain_knowledge := dictInsert kgInit.domain_knowledge "problem" problem }
  let st0 : RunSt :=
    { state := DiscoveryState.running, knowledge := kg0, current_iteration := 0
      interrupt_requested := false, checkpoint := none, probability_logs := []
      all_discoveries := [], novelty := novelty
      data_availability := data_availability, constraint_level := constraint_level
      prior_work := prior_work, ctr := ctr0 }
  match runLoop cfg problem target_confidence bf (cfg.max_iterations + 1) st0 with
  | .error e => Except.error e
  | .ok st => Except.ok (mkReport problem st)

/-! ## `DiscoveryEngine.run_iterator` -/

/-- The dict yielded by `run_iterator` after each iteration. -/
structure IterSnapshot where
  state : DiscoveryState
  iteration : ℕ
  p : ℚ
  n : ℤ
  angles_executed : ℕ
  discoveries_this_iteration : ℕ
  total_discoveries : ℕ
  knowledge : KnowledgeGraph

/-- The mutable state carried between `run_iterator` resumption points. -/
structure IterSt where
  state : DiscoveryState
  knowledge : KnowledgeGraph
  current_iteration : ℕ
  probability_logs : List ProbabilityLog
  all_discoveries : List Discovery
  novelty : String
  data_availability : String
  constraint_level : String
  prior_work : String
  ctr : ℕ

/-- The angle-execution loop of `run_iterator` (`for angle in angles:`):
register, execute, register result — with no branching clause. -/
def iterExecute (exec : Angle → KnowledgeGraph → AngleResult) :
    List Angle → KnowledgeGraph → List AngleResult →
    KnowledgeGraph × List AngleResult
  | [], kg, results => (kg, results)
  | angle :: rest, kg, results =>
    let kg1 := kg.add_angle angle
    let r := exec angle kg1
    iterExecute exec rest (kg1.add_result r) (results ++ [r])

/-- Initial state of `run_iterator` (kwargs defaults applied by the
caller). -/
def iterInit (problem : String) (initial_knowledge : Option KnowledgeGraph)
    (novelty data_availability constraint_level prior_work : String)
    (ctr0 : ℕ) : IterSt :=
  let kgInit := initial_knowledge.getD KnowledgeGraph.empty
  { state := DiscoveryState.running
    knowledge := { kgInit with
      domain_knowledge := dictInsert kgInit.domain_knowledge "problem" problem }
    current_iteration := 0, probability_logs := [], all_discoveries := []
    novelty := novelty, data_availability := data_availability
    constraint_level := constraint_level, prior_work := prior_work
    ctr := ctr0 }

/-- The body of one `run_iterator` iteration after the angle count `n`
has been computed: log, generate, execute (no branching clause), synthesize
every discovery-grade result, check the solution when any exist, and yield
the snapshot.  Unlike `run`'s body, there is no branching on signal, no
descriptor adjustment and no end-of-iteration merge. -/
def iterBodyAfterN (cfg : EngineCfg) (problem : String)
    (target_confidence : ℝ) (st : IterSt) (p : ℚ) (n : ℤ) :
    IterSnapshot × IterSt :=
  let log : ProbabilityLog :=
    { loop_iteration := st.current_iteration, estimated_p := p
      target_confidence := target_confidence, calculated_n := n }
  let st := { st with probability_logs := st.probability_logs ++ [log] }
  let generated :=
    generateDispatch cfg.angle_generator problem st.knowledge n.toNat st.ctr
  let executed := iterExecute cfg.angle_executor generated.1 st.knowledge []
  let discoveries := executed.2.filter (fun r => r.is_discovery)
  let synthesized := synthesizeAll discoveries executed.1 generated.2
  let all' := st.all_discoveries ++ synthesized.2.1
  let solved := !discoveries.isEmpty && cfg.solution_checker problem all'
  let st' := { st with
    state := if solved then DiscoveryState.solved else st.state
    knowledge := synthesized.1, all_discoveries := all'
    ctr := synthesized.2.2 }
  ({ state := st'.state, iteration := st'.current_iteration, p := p
     n := n, angles_executed := executed.2.length
     discoveries_this_iteration := discoveries.length
     total_discoveries := all'.length, knowledge := synthesized.1 }, st')

/-- One resumption of the `run_iterator` generator: either it terminates
(`none` — the `while` guard failed or the ceiling tripped, with no yield)
or it performs one iteration and yields a snapshot.  Note the source's
iterator body has no pause check. -/
noncomputable def iterStep (cfg : EngineCfg) (problem : String)
    (target_confidence : ℝ) (st0 : IterSt) :
    Except String (Option IterSnapshot × IterSt) :=
  if st0.state ≠ DiscoveryState.running then Except.ok (none, st0)
  else
    let st := { st0 with current_iteration := st0.current_iteration + 1 }
    if cfg.max_iterations < st.current_iteration then
      Except.ok (none, { st with state := DiscoveryState.exhausted })
    else
      let p := estimate st.novelty st.data_availability st.constraint_level
        st.prior_work []
      match calculate_angles_needed (p : ℝ) target_confidence with
      | .error e => Except.error e
      | .ok n =>
        let (snap, st') := iterBodyAfterN cfg problem target_confidence st p n
        Except.ok (some snap, st')

/-- Driving `run_iterator` to completion, collecting every yielded
snapshot (a caller iterating the generator until it is exhausted). -/
noncomputable def runIteratorAll (cfg : EngineCfg) (problem : String)
    (target_confidence : ℝ) :
    ℕ → IterSt → Except String (List IterSnapshot × IterSt)
  | 0, _ => Except.error "loop fuel exhausted"
  | fuel + 1, st =>
    match iterStep cfg problem target_confidence st with
    | .error e => Except.error e
    | .ok (none, st') => Except.ok ([], st')
    | .ok (some snap, st') =>
      match runIteratorAll cfg problem target_confidence fuel st' with
      | .error e => Except.error e
      | .ok (snaps, st'') => Except.ok (snap :: snaps, st'')

/-! ## Pause / resume -/

/-- The engine object's fields consulted by `resume`: the injected
strategies, the current in-memory knowledge graph (possibly `None`) and the
stored checkpoint (possibly `None`). -/
structure Engine where
  cfg : EngineCfg
  knowledge : Option KnowledgeGraph
  checkpoint : Option Checkpoint

/-- Source `DiscoveryEngine.resume`.  `_load_checkpoint` stores the checkpoint and
restores only `current_iteration` (which `run` immediately resets to 0); it
does NOT deserialize the checkpoint's knowledge graph — the subsequent
`run` call receives the engine's current in-memory `self.knowledge`
(`initial_knowledge=self.knowledge`), with the problem and target
confidence read back from the checkpoint and the four qualitative
descriptors at their `run` defaults. -/
noncomputable def resume (eng : Engine) (checkpoint : Option Checkpoint)
    (bf ctr0 : ℕ) : Except String RunReport :=
  match checkpoint with
  | some cp =>
    run eng.cfg cp.problem cp.target_confidence "partially_explored" "moderate"
      "moderately_constrained" "some_attempts" eng.knowledge bf ctr0
  | none =>
    match eng.checkpoint with
    | some cp =>
      run eng.cfg cp.problem cp.target_confidence "partially_explored" "moderate"
        "moderately_constrained" "some_attempts" eng.knowledge bf ctr0
    | none => Except.error "No checkpoint available to resume from"

/-! ## Spec-side helper definitions and concrete fixtures -/

/-- Midpoint of the novelty base range, with the source's fallback to the
`"partially_explored"` entry (spec wording: "novelty midpoint"). -/
def noveltyMid (novelty : String) : ℚ :=
  let r := (assocLookup novelty NOVELTY_BASE).getD (3/100, 10/100)
  (r.1 + r.2) / 2

/-- Midpoint of the prior-work range, with the source's fallback to the
`"some_attempts"` entry (spec wording: "prior midpoint"). -/
def priorMid (prior_work : String) : ℚ :=
  let r := (assocLookup prior_work PRIOR_WORK_ADJUSTMENTS).getD (3/100, 8/100)
  (r.1 + r.2) / 2

/-- Data-availability multiplier with the source's fallback `1.0`. -/
def dataMult (data_availability : String) : ℚ :=
  (assocLookup data_availability DATA_MULTIPLIERS).getD 1

/-- Constraint-level multiplier with the source's fallback `1.0`. -/
def constraintMult (constraint_level : String) : ℚ :=
  (assocLookup constraint_level CONSTRAINT_MULTIPLIERS).getD 1

/-- Spec-side reading of claim C9: the angle loop over a fixed
pre-generated list — register angle, execute, register result — with the
worklist never extended.  Compared against `processWorklist`. -/
def processFixedList (exec : Angle → KnowledgeGraph → AngleResult) :
    List Angle → KnowledgeGraph → List AngleResult → ℕ →
    KnowledgeGraph × List AngleResult × ℕ
  | [], kg, results, ctr => (kg, results, ctr)
  | angle :: rest, kg, results, ctr =>
    let kg1 := kg.add_angle angle
    let r := exec angle kg1
    processFixedList exec rest (kg1.add_result r) (results ++ [r]) ctr

/-- Fixture: a concrete angle with a fixed id. -/
def aFix : Angle :=
  { id := "a0", category := .technical, description := "probe"
    hypothesis := "h", method := "m", parent_id := none }

/-- Fixture: a no-signal result for `aFix`. -/
def rFixNoSignal : AngleResult :=
  { angle := aFix, has_signal := false, signal_strength := 0
    findings := [], error := none }

/-- Fixture: an executor that signals with strength 0.35 on top-level
angles (no `parent_id`) and stays silent on branch angles. -/
def execSignal35 (a : Angle) (_knowledge : KnowledgeGraph) : AngleResult :=
  if a.parent_id = none then
    { angle := a, has_signal := true, signal_strength := 35/100
      findings := [], error := none }
  else
    { angle := a, has_signal := false, signal_strength := 0
      findings := [], error := none }

/-- Fixture: a solution checker satisfied by any discovery. -/
def checkerAnyDiscovery (_problem : String) (ds : List Discovery) : Bool :=
  !ds.isEmpty

/-- Fixture: default generator, signalling executor, ceiling 5. -/
def cfgBranch : EngineCfg :=
  { angle_generator := .defaultGen, angle_executor := execSignal35
    solution_checker := checkerAnyDiscovery, max_iterations := 5 }

/-- Fixture: a custom (non-default) generator that always proposes the
single fixed angle `aFix`, whatever count is requested. -/
def genSingle : GeneratorImpl :=
  .custom (fun _ _ _ => [aFix])

/-- Fixture: custom generator, never-signalling executor, ceiling 1. -/
def cfgNoSignalMax1 : EngineCfg :=
  { angle_generator := genSingle, angle_executor := default_executor
    solution_checker := default_solution_checker, max_iterations := 1 }

/-- Fixture: custom generator, never-signalling executor, ceiling 2. -/
def cfgNoSignalMax2 : EngineCfg :=
  { angle_generator := genSingle, angle_executor := default_executor
    solution_checker := default_solution_checker, max_iterations := 2 }

/-- Fixture: custom generator, never-signalling executor, ceiling 0. -/
def cfgMax0 : EngineCfg :=
  { angle_generator := genSingle, angle_executor := default_executor
    solution_checker := default_solution_checker, max_iterations := 0 }

/-- Fixture: a knowledge graph that already contains `aFix`. -/
def kgWithA : KnowledgeGraph :=
  KnowledgeGraph.empty.add_angle aFix

/-- Fixture: an engine with no in-memory knowledge and no stored
checkpoint. -/
def engFresh : Engine :=
  { cfg := cfgMax0, knowledge := none, checkpoint := none }

/-- Fixture: a checkpoint whose serialized knowledge graph is non-empty. -/
noncomputable def cpStored : Checkpoint :=
  { problem := "P", target_confidence := 1/2, iteration := 5
    knowledge := some kgWithA.to_dict, probability_logs := [] }

/-- Fixture: the probability log of a first iteration run at target 0.061
with the default descriptors (`estimate` yields 61/1000 there). -/
noncomputable def logIter1 : ProbabilityLog :=
  { loop_iteration := 1, estimated_p := 61/1000
    target_confidence := (61 : ℝ)/1000, calculated_n := 1 }

/-- Fixture: the probability log of a second iteration after the
pessimistic adjustment (`estimate` yields 9/500 there), with the angle
count left abstract. -/
noncomputable def logIter2 (n : ℤ) : ProbabilityLog :=
  { loop_iteration := 2, estimated_p := 9/500
    target_confidence := (61 : ℝ)/1000, calculated_n := n }

/-- Fixture: the loop state `run` starts from for problem `"P"` with the
default descriptors and no initial knowledge. -/
def stRun0 : RunSt :=
  { state := DiscoveryState.running
    knowledge :=
      { angles := [], results := [], discoveries := [], failed_approaches := []
        domain_knowledge := [("problem", "P")], connections := [] }
    current_iteration := 0, interrupt_requested := false, checkpoint := none
    probability_logs := [], all_discoveries := []
    novelty := "partially_explored", data_availability := "moderate"
    constraint_level := "moderately_constrained", prior_work := "some_attempts"
    ctr := 0 }

/-- Fixture: `stRun0` after one full no-signal iteration over the single
angle `aFix` (note the duplicated failed id from `add_result` plus the
final `merge`, and the pessimistic descriptor adjustment). -/
noncomputable def stRun1 : RunSt :=
  { state := DiscoveryState.running
    knowledge :=
      { angles := [("a0", aFix)], results := [("a0", rFixNoSignal)]
        discoveries := [], failed_approaches := ["a0", "a0"]
        domain_knowledge := [("problem", "P")], connections := [] }
    current_iteration := 1, interrupt_requested := false, checkpoint := none
    probability_logs := [logIter1], all_discoveries := []
    novelty := "completely_novel", data_availability := "moderate"
    constraint_level := "moderately_constrained", prior_work := "many_failures"
    ctr := 0 }

/-- Fixture: `stRun1` after a second such iteration (angle count `n`
abstract: the custom generator ignores it). -/
noncomputable def stRun2 (n : ℤ) : RunSt :=
  { state := DiscoveryState.running
    knowledge :=
      { angles := [("a0", aFix)], results := [("a0", rFixNoSignal)]
        discoveries := [], failed_approaches := ["a0", "a0", "a0", "a0"]
        domain_knowledge := [("problem", "P")], connections := [] }
    current_iteration := 2, interrupt_requested := false, checkpoint := none
    probability_logs := [logIter1, logIter2 n], all_discoveries := []
    novelty := "completely_novel", data_availability := "moderate"
    constraint_level := "moderately_constrained", prior_work := "many_failures"
    ctr := 0 }

/-- Fixture: `run_iterator` state after one no-signal iteration over
`aFix` — one failed id (no merge), descriptors untouched. -/
noncomputable def itSt1 : IterSt :=
  { state := DiscoveryState.running
    knowledge :=
      { angles := [("a0", aFix)], results := [("a0", rFixNoSignal)]
        discoveries := [], failed_approaches := ["a0"]
        domain_knowledge := [("problem", "P")], connections := [] }
    current_iteration := 1, probability_logs := [logIter1]
    all_discoveries := [], novelty := "partially_explored"
    data_availability := "moderate"
    constraint_level := "moderately_constrained", prior_work := "some_attempts"
    ctr := 0 }

/-- Fixture: the snapshot yielded by that first iterator iteration. -/
noncomputable def itSnap1 : IterSnapshot :=
  { state := DiscoveryState.running, iteration := 1, p := 61/1000, n := 1
    angles_executed := 1, discoveries_this_iteration := 0
    total_discoveries := 0
    knowledge :=
      { angles := [("a0", aFix)], results := [("a0", rFixNoSignal)]
        discoveries := [], failed_approaches := ["a0"]
        domain_knowledge := [("problem", "P")], connections := [] } }

/-! # Theorems

Helper lemmas first, then one theorem per claim (with witnesses and
counterexamples where required). -/

/-- Folding multiplication over the custom factors multiplies by their
product. -/
theorem foldl_mul_factors (init : ℚ) (cf : List (String × ℚ)) :
    cf.foldl (fun acc f => acc * f.2) init = init * (cf.map Prod.snd).prod := by
  induction cf generalizing init with
  | nil => simp
  | cons h t ih => simp [ih, mul_assoc]

/-- Lower bound of the estimator's clamp. -/
theorem estimate_ge (nov da cl pw : String) (cf : List (String × ℚ)) :
    1/1000 ≤ estimate nov da cl pw cf :=
  le_max_left _ _

/-- Upper bound of the estimator's clamp. -/
theorem estimate_le (nov da cl pw : String) (cf : List (String × ℚ)) :
    estimate nov da cl pw cf ≤ 1/2 :=
  max_le (by norm_num) (min_le_left _ _)

/-- Claim C10: `analyze_failure_patterns` is total on every list of
results, including the empty list: for an empty input it performs no
division, returning `total_failures = 0`, `failure_rate = 0`,
`worst_performing_category = None` and the recommendation
`"Continue current approach"`; in general the recommendation is
`"Try different categories"` exactly when the failure rate exceeds 0.9. -/
theorem C10_failure_analysis_total :
    (analyze_failure_patterns [] =
      { total_failures := 0
        failure_rate := 0
        failures_by_category := allCategories.map (fun c => (c.value, 0))
        worst_performing_category := none
        recommendation := "Continue current approach" }) ∧
    ∀ results : List AngleResult,
      ((analyze_failure_patterns results).recommendation =
          "Try different categories" ↔
        (9 : ℚ)/10 < (analyze_failure_patterns results).failure_rate) := by
  constructor
  · have h : ¬ ((9 : ℚ)/10 < 0) := by norm_num
    simp [analyze_failure_patterns, h]
  · intro results
    simp only [analyze_failure_patterns]
    split_ifs with h1 h2 h3 <;>
      first
        | exact iff_of_true rfl (by assumption)
        | exact iff_of_false (by decide) (by assumption)

/-- Claim C8: for every combination of inputs to
`ProbabilityEstimator.estimate` — including descriptor strings outside the
documented enumerations, which fall back to the partially_explored /
moderate / moderately_constrained / some_attempts defaults instead of
failing — the returned `p` lies in `[0.001, 0.5]`, and before clamping `p`
equals `(0.6·novelty_mid + 0.4·prior_mid) · data_mult · constraint_mult`
times all custom factors. -/
theorem C8_estimator_clamp_and_product :
    (∀ nov da cl pw cf,
      1/1000 ≤ estimate nov da cl pw cf ∧ estimate nov da cl pw cf ≤ 1/2) ∧
    (∀ nov da cl pw cf,
      estimate_before_clamp nov da cl pw cf =
        (6/10 * noveltyMid nov + 4/10 * priorMid pw) * dataMult da *
          constraintMult cl * (cf.map Prod.snd).prod) ∧
    (∀ nov da cl pw cf,
      nov ∉ ["well_studied", "partially_explored", "completely_novel"] →
      da ∉ ["rich", "moderate", "sparse"] →
      cl ∉ ["highly_constrained", "moderately_constrained", "wide_open"] →
      pw ∉ ["many_failures", "some_attempts", "fresh_problem"] →
      estimate nov da cl pw cf =
        estimate "partially_explored" "moderate" "moderately_constrained"
          "some_attempts" cf) := by
  refine ⟨fun nov da cl pw cf => ⟨estimate_ge _ _ _ _ _, estimate_le _ _ _ _ _⟩,
    fun nov da cl pw cf => ?_, fun nov da cl pw cf hn hd hc hp => ?_⟩
  · unfold estimate_before_clamp noveltyMid priorMid dataMult constraintMult
    rw [foldl_mul_factors]
    ring
  · simp only [List.mem_cons, List.mem_singleton, not_or] at hn hd hc hp
    obtain ⟨hn1, hn2, hn3, -⟩ := hn
    obtain ⟨hd1, hd2, hd3, -⟩ := hd
    obtain ⟨hc1, hc2, hc3, -⟩ := hc
    obtain ⟨hp1, hp2, hp3, -⟩ := hp
    unfold estimate estimate_before_clamp
    simp [assocLookup, NOVELTY_BASE, DATA_MULTIPLIERS, CONSTRAINT_MULTIPLIERS,
      PRIOR_WORK_ADJUSTMENTS, Ne.symm hn1, Ne.symm hn2, Ne.symm hn3,
      Ne.symm hd1, Ne.symm hd2, Ne.symm hd3, Ne.symm hc1, Ne.symm hc2,
      Ne.symm hc3, Ne.symm hp1, Ne.symm hp2, Ne.symm hp3]

/-- Witness for C8 at concrete inputs: out-of-enumeration descriptors fall
back to the defaults. -/
theorem C8_witness :
    estimate "weird" "weird" "weird" "weird" [("boost", 2)] =
      estimate "partially_explored" "moderate" "moderately_constrained"
        "some_attempts" [("boost", 2)] :=
  C8_estimator_clamp_and_product.2.2 "weird" "weird" "weird" "weird"
    [("boost", 2)] (by decide) (by decide) (by decide) (by decide)

/-- A successful lookup implies the key occurs among the stored keys. -/
theorem assocLookup_mem {α : Type} {k : String} {d : List (String × α)} {v : α}
    (h : assocLookup k d = some v) : (d.map Prod.fst).contains k := by
  induction d with
  | nil => simp [assocLookup] at h
  | cons hd tl ih =>
    by_cases hk : hd.1 = k
    · exact List.elem_iff.mpr (by simp [hk])
    · rw [show hd = (hd.1, hd.2) from rfl, assocLookup, if_neg hk] at h
      exact List.elem_iff.mpr (List.mem_cons_of_mem _ (List.elem_iff.mp (ih h)))

/-- Rewriting the stored value to itself touches nothing (keys unique). -/
theorem map_update_of_lookup {α : Type} {d : List (String × α)} {k : String}
    {v : α} (hnd : (d.map Prod.fst).Nodup) (h : assocLookup k d = some v) :
    d.map (fun p => if p.1 = k then (k, v) else p) = d := by
  induction d with
  | nil => rfl
  | cons hd tl ih =>
    simp only [List.map_cons, List.nodup_cons] at hnd ⊢
    by_cases hk : hd.1 = k
    · rw [show hd = (hd.1, hd.2) from rfl, assocLookup, if_pos hk] at h
      have hv : hd.2 = v := by injection h
      subst hk hv
      refine congrArg₂ _ (by simp) ?_
      have hfix : ∀ p ∈ tl, (fun p : String × α =>
          if p.1 = hd.1 then (hd.1, hd.2) else p) p = id p := by
        intro p hp
        have : p.1 ≠ hd.1 := by
          intro hc
          exact hnd.1 (hc ▸ List.mem_map_of_mem Prod.fst hp)
        simp [this]
      exact (List.map_congr_left hfix).trans (List.map_id tl)
    · rw [show hd = (hd.1, hd.2) from rfl, assocLookup, if_neg hk] at h
      refine congrArg₂ _ (by simp [hk]) (ih hnd.2 h)

/-- Re-inserting an already-stored binding leaves a unique-key dict
unchanged. -/
theorem dictInsert_of_lookup {α : Type} {d : List (String × α)} {k : String}
    {v : α} (hnd : (d.map Prod.fst).Nodup) (h : assocLookup k d = some v) :
    dictInsert d k v = d := by
  unfold dictInsert
  rw [if_pos (assocLookup_mem h)]
  exact map_update_of_lookup hnd h

/-- Claim C2 (amended): merging results that are already registered leaves
`angles`, `results`, `discoveries` and `connections` unchanged, but appends
the angle id of every no-signal result to `failed_approaches` once more
(the merge is idempotent on the dictionaries, not on the failed-approaches
list). -/
theorem C2_merge_registered (g : KnowledgeGraph) (rs : List AngleResult)
    (hnd : (g.results.map Prod.fst).Nodup)
    (hreg : ∀ r ∈ rs, assocLookup r.angle.id g.results = some r) :
    (g.merge rs).angles = g.angles ∧
    (g.merge rs).results = g.results ∧
    (g.merge rs).discoveries = g.discoveries ∧
    (g.merge rs).connections = g.connections ∧
    (g.merge rs).failed_approaches =
      g.failed_approaches ++
        (rs.filter (fun r => !r.has_signal)).map (fun r => r.angle.id) := by
  induction rs generalizing g with
  | nil => simp [KnowledgeGraph.merge]
  | cons r rs ih =>
    have hr := hreg r (List.mem_cons_self r rs)
    have hres : (g.add_result r).results = g.results := by
      simp [KnowledgeGraph.add_result, dictInsert_of_lookup hnd hr]
    have hnd' : ((g.add_result r).results.map Prod.fst).Nodup := by
      rw [hres]; exact hnd
    have hreg' : ∀ x ∈ rs, assocLookup x.angle.id (g.add_result r).results =
        some x := by
      intro x hx
      rw [hres]; exact hreg x (List.mem_cons_of_mem r hx)
    have hstep : g.merge (r :: rs) = (g.add_result r).merge rs := by
      simp [KnowledgeGraph.merge]
    obtain ⟨h1, h2, h3, h4, h5⟩ := ih (g.add_result r) hnd' hreg'
    rw [hstep]
    refine ⟨by rw [h1]; rfl, by rw [h2, hres], by rw [h3]; rfl,
      by rw [h4]; rfl, ?_⟩
    rw [h5]
    cases hsig : r.has_signal with
    | true =>
      simp [KnowledgeGraph.add_result, hsig, List.filter_cons, hres]
    | false =>
      simp [KnowledgeGraph.add_result, hsig, List.filter_cons]

/-- Witness for C2 (amended) at a concrete graph: re-merging the stored
no-signal result duplicates its id in the failed-approaches list. -/
theorem C2_merge_registered_witness :
    ((KnowledgeGraph.empty.add_result rFixNoSignal).merge
        [rFixNoSignal]).failed_approaches = ["a0", "a0"] := by
  have h := C2_merge_registered (KnowledgeGraph.empty.add_result rFixNoSignal)
    [rFixNoSignal] (by decide) (by decide)
  rw [h.2.2.2.2]
  decide

/-- Counterexample to claim C2 as stated: for a graph holding one
already-registered no-signal result, re-merging that result does not leave
the failed-approaches list unchanged. -/
theorem C2_counterexample :
    ((KnowledgeGraph.empty.add_result rFixNoSignal).merge
        [rFixNoSignal]).failed_approaches ≠
      (KnowledgeGraph.empty.add_result rFixNoSignal).failed_approaches := by
  decide

/-- In the valid region, `calculate_angles_needed` returns the ceiling
formula with minimum 1. -/
theorem calculate_angles_needed_valid (p t : ℝ) (hp0 : 0 < p) (hp1 : p < 1)
    (ht0 : 0 < t) (ht1 : t < 1) :
    calculate_angles_needed p t =
      Except.ok (max 1 ⌈Real.log (1 - t) / Real.log (1 - p)⌉) := by
  unfold calculate_angles_needed
  rw [if_neg (by push_neg; exact ⟨hp0, hp1⟩),
    if_neg (by push_neg; exact ⟨ht0, ht1⟩)]

/-- In the valid region, `calculate_breakthrough_probability` returns the
closed-form complement. -/
theorem calculate_breakthrough_probability_valid (p : ℝ) (n : ℤ)
    (hp0 : 0 < p) (hp1 : p < 1) (hn : 1 ≤ n) :
    calculate_breakthrough_probability p n =
      Except.ok (1 - (1 - p) ^ n.toNat) := by
  unfold calculate_breakthrough_probability
  rw [if_neg (by push_neg; exact ⟨hp0, hp1⟩), if_neg (not_lt.mpr hn)]

/-- With equal valid probability and target, the ratio of logs is 1 and the
angle count is 1 (used to evaluate the engine at concrete inputs). -/
theorem calculate_angles_needed_self (p : ℝ) (hp0 : 0 < p) (hp1 : p < 1) :
    calculate_angles_needed p p = Except.ok 1 := by
  rw [calculate_angles_needed_valid p p hp0 hp1 hp0 hp1]
  have hlog : Real.log (1 - p) ≠ 0 :=
    ne_of_lt (Real.log_neg (by linarith) (by linarith))
  rw [div_self hlog]
  norm_num

/-- Claim C6: `calculate_angles_needed` fails exactly when `p` or
`target_confidence` lies outside the open interval (0,1) (boundaries
invalid), `calculate_breakthrough_probability` fails exactly when `p` lies
outside (0,1) or `n < 1`, and in the valid case the functions return the
unclamped `max 1 ⌈ln(1-target)/ln(1-p)⌉` and `1-(1-p)^n` respectively. -/
theorem C6_validation (p t : ℝ) (n : ℤ) :
    ((∃ m, calculate_angles_needed p t = Except.ok m) ↔
      (0 < p ∧ p < 1 ∧ 0 < t ∧ t < 1)) ∧
    ((0 < p ∧ p < 1 ∧ 0 < t ∧ t < 1) →
      calculate_angles_needed p t =
        Except.ok (max 1 ⌈Real.log (1 - t) / Real.log (1 - p)⌉)) ∧
    ((∃ b, calculate_breakthrough_probability p n = Except.ok b) ↔
      (0 < p ∧ p < 1 ∧ 1 ≤ n)) ∧
    ((0 < p ∧ p < 1 ∧ 1 ≤ n) →
      calculate_breakthrough_probability p n =
        Except.ok (1 - (1 - p) ^ n.toNat)) := by
  refine ⟨⟨?_, ?_⟩, ?_, ⟨?_, ?_⟩, ?_⟩
  · rintro ⟨m, hm⟩
    unfold calculate_angles_needed at hm
    split_ifs at hm with h1 h2
    · push_neg at h1 h2
      exact ⟨h1.1, h1.2, h2.1, h2.2⟩
  · rintro ⟨hp0, hp1, ht0, ht1⟩
    exact ⟨_, calculate_angles_needed_valid p t hp0 hp1 ht0 ht1⟩
  · rintro ⟨hp0, hp1, ht0, ht1⟩
    exact calculate_angles_needed_valid p t hp0 hp1 ht0 ht1
  · rintro ⟨b, hb⟩
    unfold calculate_breakthrough_probability at hb
    split_ifs at hb with h1 h2
    · push_neg at h1
      exact ⟨h1.1, h1.2, not_lt.mp h2⟩
  · rintro ⟨hp0, hp1, hn⟩
    exact ⟨_, calculate_breakthrough_probability_valid p n hp0 hp1 hn⟩
  · rintro ⟨hp0, hp1, hn⟩
    exact calculate_breakthrough_probability_valid p n hp0 hp1 hn

/-- Witness for C6 at `p = 1/2`, `t = 1/2`, `n = 1`. -/
theorem C6_validation_witness :
    calculate_angles_needed (1/2 : ℝ) (1/2) =
        Except.ok (max 1 ⌈Real.log (1 - (1/2 : ℝ)) / Real.log (1 - (1/2 : ℝ))⌉) ∧
      calculate_breakthrough_probability (1/2 : ℝ) 1 =
        Except.ok (1 - (1 - (1/2 : ℝ)) ^ (1 : ℤ).toNat) :=
  ⟨(C6_validation (1/2) (1/2) 1).2.1 ⟨by norm_num, by norm_num, by norm_num,
      by norm_num⟩,
    (C6_validation (1/2) (1/2) 1).2.2.2 ⟨by norm_num, by norm_num, le_refl 1⟩⟩

/-- Claim C1: for `p` and `target_confidence` in (0,1), running the angle
count through the breakthrough formula meets the target:
`breakthrough_probability(p, angles_needed(p, target)) ≥ target`. -/
theorem C1_breakthrough_meets_target (p t : ℝ) (hp0 : 0 < p) (hp1 : p < 1)
    (ht0 : 0 < t) (ht1 : t < 1) :
    ∃ n b, calculate_angles_needed p t = Except.ok n ∧
      calculate_breakthrough_probability p n = Except.ok b ∧ t ≤ b := by
  have h1p0 : (0 : ℝ) < 1 - p := by linarith
  have h1t0 : (0 : ℝ) < 1 - t := by linarith
  have hlp : Real.log (1 - p) < 0 := Real.log_neg h1p0 (by linarith)
  set L := Real.log (1 - t) / Real.log (1 - p) with hL
  set n : ℤ := max 1 ⌈L⌉ with hn
  have hn1 : (1 : ℤ) ≤ n := le_max_left _ _
  have hnn : (0 : ℤ) ≤ n := by omega
  refine ⟨n, 1 - (1 - p) ^ n.toNat,
    calculate_angles_needed_valid p t hp0 hp1 ht0 ht1,
    calculate_breakthrough_probability_valid p n hp0 hp1 hn1, ?_⟩
  have hLn : L ≤ (n.toNat : ℝ) := by
    have hceil : L ≤ (⌈L⌉ : ℝ) := Int.le_ceil L
    have hmax : ((⌈L⌉ : ℤ) : ℝ) ≤ ((n : ℤ) : ℝ) := by
      exact_mod_cast le_max_right (1 : ℤ) ⌈L⌉
    have hcast : ((n : ℤ) : ℝ) = (n.toNat : ℝ) := by
      exact_mod_cast (Int.toNat_of_nonneg hnn).symm
    linarith [hceil, hmax, hcast ▸ hmax]
  have hpow : (1 - p) ^ n.toNat ≤ 1 - t := by
    have hlogpow : Real.log ((1 - p) ^ n.toNat) =
        (n.toNat : ℝ) * Real.log (1 - p) := by rw [Real.log_pow]
    have hmul : (n.toNat : ℝ) * Real.log (1 - p) ≤ L * Real.log (1 - p) :=
      mul_le_mul_of_nonpos_right hLn (le_of_lt hlp)
    have hLlog : L * Real.log (1 - p) = Real.log (1 - t) :=
      div_mul_cancel₀ _ (ne_of_lt hlp)
    have hle : Real.log ((1 - p) ^ n.toNat) ≤ Real.log (1 - t) := by
      rw [hlogpow, ← hLlog]; exact hmul
    exact (Real.log_le_log_iff (pow_pos h1p0 _) h1t0).mp hle
  linarith

/-- Witness for C1 at `p = 1/2`, `t = 1/2`. -/
theorem C1_breakthrough_meets_target_witness :
    ∃ n b, calculate_angles_needed (1/2 : ℝ) (1/2) = Except.ok n ∧
      calculate_breakthrough_probability (1/2 : ℝ) n = Except.ok b ∧
      (1/2 : ℝ) ≤ b :=
  C1_breakthrough_meets_target (1/2) (1/2) (by norm_num) (by norm_num)
    (by norm_num) (by norm_num)

/-- Claim C9: branch angles are generated only under the default
generator.  With any other (`custom`) `AngleGenerator` implementation, the
engine's worklist loop degenerates to a plain pass over the pre-generated
list: a signalling result never appends any angle to the iteration's
worklist. -/
theorem C9_custom_generator_never_branches
    (f : String → KnowledgeGraph → ℕ → List Angle)
    (exec : Angle → KnowledgeGraph → AngleResult) (bf : ℕ)
    (pending : List Angle) (kg : KnowledgeGraph)
    (results : List AngleResult) (ctr : ℕ) :
    processWorklist (.custom f) exec bf pending kg results ctr =
      Except.ok (processFixedList exec pending kg results ctr) := by
  induction pending generalizing kg results with
  | nil => rw [processWorklist.eq_def, processFixedList]
  | cons a rest ih =>
    rw [processWorklist.eq_def, processFixedList]
    cases hsig : (exec a (kg.add_angle a)).has_signal <;> simp [hsig, ih]

/-- Angles the executor never signals on are processed without branching,
whatever the generator. -/
theorem processWorklist_no_signal (gen : GeneratorImpl)
    (exec : Angle → KnowledgeGraph → AngleResult) (bf : ℕ)
    (pending : List Angle)
    (h : ∀ a ∈ pending, ∀ kg, (exec a kg).has_signal = false) :
    ∀ kg results ctr, processWorklist gen exec bf pending kg results ctr =
      Except.ok (processFixedList exec pending kg results ctr) := by
  induction pending with
  | nil => intro kg results ctr; rw [processWorklist.eq_def, processFixedList]
  | cons a rest ih =>
    intro kg results ctr
    have hs := h a (List.mem_cons_self a rest) (kg.add_angle a)
    rw [processWorklist.eq_def, processFixedList]
    simp only [hs, Bool.false_eq_true, if_false]
    exact ih (fun x hx kg' => h x (List.mem_cons_of_mem a hx) kg') _ _ _

/-- One pass of `runLoop` in the regular case: the guards pass and the
iteration body runs. -/
theorem runLoop_step_body (cfg : EngineCfg) (problem : String) (t : ℝ)
    (bf fuel : ℕ) (st0 : RunSt) (p : ℚ) (n : ℤ)
    (hrun : st0.state = DiscoveryState.running)
    (hle : st0.current_iteration + 1 ≤ cfg.max_iterations)
    (hint : st0.interrupt_requested = false)
    (hp : estimate st0.novelty st0.data_availability st0.constraint_level
      st0.prior_work [] = p)
    (hcan : calculate_angles_needed (p : ℝ) t = Except.ok n) :
    runLoop cfg problem t bf (fuel + 1) st0 =
      match runBodyAfterN cfg problem t bf
          { st0 with current_iteration := st0.current_iteration + 1 }
          p n with
      | .error e => Except.error e
      | .ok (Sum.inr stF) => Except.ok stF
      | .ok (Sum.inl st') => runLoop cfg problem t bf fuel st' := by
  rw [runLoop]
  rw [if_neg (by simp [hrun]), if_neg (by simp; omega)]
  simp only [hint, Bool.false_eq_true, if_false, hp, hcan]

/-- One pass of `runLoop` when the incremented counter exceeds the
ceiling: the engine transitions to `EXHAUSTED` with the counter already
incremented. -/
theorem runLoop_step_exhaust (cfg : EngineCfg) (problem : String) (t : ℝ)
    (bf fuel : ℕ) (st0 : RunSt)
    (hrun : st0.state = DiscoveryState.running)
    (hgt : cfg.max_iterations < st0.current_iteration + 1) :
    runLoop cfg problem t bf (fuel + 1) st0 =
      Except.ok { st0 with
        current_iteration := st0.current_iteration + 1
        state := DiscoveryState.exhausted } := by
  rw [runLoop]
  rw [if_neg (by simp [hrun]), if_pos (by simpa using hgt)]

/-- One `run_iterator` resumption in the regular case. -/
theorem iterStep_body (cfg : EngineCfg) (problem : String) (t : ℝ)
    (st0 : IterSt) (p : ℚ) (n : ℤ)
    (hrun : st0.state = DiscoveryState.running)
    (hle : st0.current_iteration + 1 ≤ cfg.max_iterations)
    (hp : estimate st0.novelty st0.data_availability st0.constraint_level
      st0.prior_work [] = p)
    (hcan : calculate_angles_needed (p : ℝ) t = Except.ok n) :
    iterStep cfg problem t st0 =
      Except.ok (some (iterBodyAfterN cfg problem t
          { st0 with current_iteration := st0.current_iteration + 1 }
          p n).1,
        (iterBodyAfterN cfg problem t
          { st0 with current_iteration := st0.current_iteration + 1 }
          p n).2) := by
  unfold iterStep
  rw [if_neg (by simp [hrun]), if_neg (by simp; omega)]
  simp only [hp, hcan]

/-- One `run_iterator` resumption when the ceiling trips: the generator
returns without yielding, in state `EXHAUSTED`. -/
theorem iterStep_exhaust (cfg : EngineCfg) (problem : String) (t : ℝ)
    (st0 : IterSt)
    (hrun : st0.state = DiscoveryState.running)
    (hgt : cfg.max_iterations < st0.current_iteration + 1) :
    iterStep cfg problem t st0 =
      Except.ok (none, { st0 with
        current_iteration := st0.current_iteration + 1
        state := DiscoveryState.exhausted }) := by
  unfold iterStep
  rw [if_neg (by simp [hrun]), if_pos (by simpa using hgt)]

/-- Estimator value at the `run` default descriptors. -/
theorem estimate_defaults_eval :
    estimate "partially_explored" "moderate" "moderately_constrained"
      "some_attempts" [] = (61/1000 : ℚ) := by
  unfold estimate estimate_before_clamp
  norm_num [show assocLookup "partially_explored" NOVELTY_BASE =
      some ((3:ℚ)/100, (10:ℚ)/100) from rfl,
    show assocLookup "moderate" DATA_MULTIPLIERS = some 1 from rfl,
    show assocLookup "moderately_constrained" CONSTRAINT_MULTIPLIERS =
      some 1 from rfl,
    show assocLookup "some_attempts" PRIOR_WORK_ADJUSTMENTS =
      some ((3:ℚ)/100, (8:ℚ)/100) from rfl,
    max_def, min_def]

/-- Estimator value after the pessimistic descriptor adjustment. -/
theorem estimate_pessimistic_eval :
    estimate "completely_novel" "moderate" "moderately_constrained"
      "many_failures" [] = (9/500 : ℚ) := by
  unfold estimate estimate_before_clamp
  norm_num [show assocLookup "completely_novel" NOVELTY_BASE =
      some ((1:ℚ)/100, (3:ℚ)/100) from rfl,
    show assocLookup "moderate" DATA_MULTIPLIERS = some 1 from rfl,
    show assocLookup "moderately_constrained" CONSTRAINT_MULTIPLIERS =
      some 1 from rfl,
    show assocLookup "many_failures" PRIOR_WORK_ADJUSTMENTS =
      some ((1:ℚ)/100, (2:ℚ)/100) from rfl,
    max_def, min_def]

/-- With `p = target = 0.061` the angle count evaluates to 1. -/
theorem calc_eval_p61 :
    calculate_angles_needed (((61:ℚ)/1000 : ℚ) : ℝ) ((61:ℝ)/1000) =
      Except.ok 1 := by
  rw [show (((61:ℚ)/1000 : ℚ) : ℝ) = (61:ℝ)/1000 by norm_num]
  exact calculate_angles_needed_self _ (by norm_num) (by norm_num)

/-- The second-iteration angle count exists (`p = 9/500` is valid). -/
theorem calc_ok_p9500 :
    ∃ m, calculate_angles_needed (((9:ℚ)/500 : ℚ) : ℝ) ((61:ℝ)/1000) =
      Except.ok m := by
  rw [show (((9:ℚ)/500 : ℚ) : ℝ) = (9:ℝ)/500 by norm_num]
  exact ⟨_, calculate_angles_needed_valid _ _ (by norm_num) (by norm_num)
    (by norm_num) (by norm_num)⟩

/-- Evaluating `runBodyAfterN` once the worklist execution result is
known. -/
theorem runBodyAfterN_via (cfg : EngineCfg) (problem : String) (t : ℝ)
    (bf : ℕ) (st : RunSt) (p : ℚ) (n : ℤ) (kg : KnowledgeGraph)
    (results : List AngleResult) (ctr2 : ℕ)
    (h : processWorklist cfg.angle_generator cfg.angle_executor bf
      (generateDispatch cfg.angle_generator problem st.knowledge n.toNat
        st.ctr).1 st.knowledge []
      (generateDispatch cfg.angle_generator problem st.knowledge n.toNat
        st.ctr).2 = Except.ok (kg, results, ctr2)) :
    runBodyAfterN cfg problem t bf st p n =
      Except.ok (runBodyAfterWorklist cfg problem
        { st with probability_logs := st.probability_logs ++
            [{ loop_iteration := st.current_iteration, estimated_p := p
               target_confidence := t, calculated_n := n }] }
        kg results ctr2) := by
  unfold runBodyAfterN
  simp only [h]

/-- Claim C7 (code evaluated at the failing input): an engine whose
executor never signals and whose ceiling is 2 stops `EXHAUSTED` after
executing exactly two loop iterations (two probability logs) with zero
discoveries — but the report's `iterations` field reads 3, the counter
value that tripped the ceiling, not 2 as the claim (and the repository's
own test) requires. -/
theorem C7_exhausted_report_off_by_one :
    ∃ rep, run cfgNoSignalMax2 "P" ((61:ℝ)/1000) "partially_explored"
        "moderate" "moderately_constrained" "some_attempts" none 0 0 =
      Except.ok rep ∧
    rep.state = DiscoveryState.exhausted ∧
    rep.discoveries = [] ∧
    rep.probability_logs.length = 2 ∧
    rep.iterations = 3 := by
  obtain ⟨n2, hn2⟩ := calc_ok_p9500
  have hb1 : runBodyAfterN cfgNoSignalMax2 "P" ((61:ℝ)/1000) 0
      { stRun0 with current_iteration := stRun0.current_iteration + 1 }
      ((61:ℚ)/1000) 1 = Except.ok (Sum.inl stRun1) := by
    rw [runBodyAfterN_via _ _ _ _ _ _ _
      { angles := [("a0", aFix)], results := [("a0", rFixNoSignal)]
        discoveries := [], failed_approaches := ["a0"]
        domain_knowledge := [("problem", "P")], connections := [] }
      [rFixNoSignal] 0
      (by rw [processWorklist_no_signal _ _ _ _ (fun a ha kg => rfl) _ _ _]
          rfl)]
    rfl
  have hb2 : runBodyAfterN cfgNoSignalMax2 "P" ((61:ℝ)/1000) 0
      { stRun1 with current_iteration := stRun1.current_iteration + 1 }
      ((9:ℚ)/500) n2 = Except.ok (Sum.inl (stRun2 n2)) := by
    rw [runBodyAfterN_via _ _ _ _ _ _ _
      { angles := [("a0", aFix)], results := [("a0", rFixNoSignal)]
        discoveries := [], failed_approaches := ["a0", "a0", "a0"]
        domain_knowledge := [("problem", "P")], connections := [] }
      [rFixNoSignal] 0
      (by rw [processWorklist_no_signal _ _ _ _ (fun a ha kg => rfl) _ _ _]
          rfl)]
    rfl
  have h0 : run cfgNoSignalMax2 "P" ((61:ℝ)/1000) "partially_explored"
      "moderate" "moderately_constrained" "some_attempts" none 0 0 =
      (match runLoop cfgNoSignalMax2 "P" ((61:ℝ)/1000) 0 (2 + 1) stRun0 with
        | Except.error e => Except.error e
        | Except.ok st => Except.ok (mkReport "P" st)) := rfl
  have s1 : runLoop cfgNoSignalMax2 "P" ((61:ℝ)/1000) 0 (2 + 1) stRun0 =
      runLoop cfgNoSignalMax2 "P" ((61:ℝ)/1000) 0 2 stRun1 := by
    rw [runLoop_step_body cfgNoSignalMax2 "P" ((61:ℝ)/1000) 0 2 stRun0
      ((61:ℚ)/1000) 1 rfl (by decide) rfl estimate_defaults_eval
      calc_eval_p61, hb1]
  have s2 : runLoop cfgNoSignalMax2 "P" ((61:ℝ)/1000) 0 2 stRun1 =
      runLoop cfgNoSignalMax2 "P" ((61:ℝ)/1000) 0 1 (stRun2 n2) := by
    rw [show (2:ℕ) = 1 + 1 from rfl,
      runLoop_step_body cfgNoSignalMax2 "P" ((61:ℝ)/1000) 0 1 stRun1
        ((9:ℚ)/500) n2 rfl (by decide) rfl estimate_pessimistic_eval hn2,
      hb2]
  have s3 : runLoop cfgNoSignalMax2 "P" ((61:ℝ)/1000) 0 1 (stRun2 n2) =
      Except.ok { stRun2 n2 with
        current_iteration := 3, state := DiscoveryState.exhausted } := by
    rw [show (1:ℕ) = 0 + 1 from rfl,
      runLoop_step_exhaust cfgNoSignalMax2 "P" ((61:ℝ)/1000) 0 0 (stRun2 n2)
        rfl (by simp [stRun2, cfgNoSignalMax2])]
    rfl
  refine ⟨mkReport "P" { stRun2 n2 with
      current_iteration := 3, state := DiscoveryState.exhausted },
    ?_, rfl, rfl, rfl, rfl⟩
  rw [h0, s1, s2, s3]

/-- Driving the iterator through a yielding resumption. -/
theorem runIteratorAll_yield (cfg : EngineCfg) (problem : String) (t : ℝ)
    (fuel : ℕ) (st : IterSt) (snap : IterSnapshot) (st' : IterSt)
    (h : iterStep cfg problem t st = Except.ok (some snap, st')) :
    runIteratorAll cfg problem t (fuel + 1) st =
      match runIteratorAll cfg problem t fuel st' with
      | .error e => Except.error e
      | .ok (snaps, st'') => Except.ok (snap :: snaps, st'') := by
  rw [runIteratorAll]
  simp only [h]

/-- Driving the iterator through its final (non-yielding) resumption. -/
theorem runIteratorAll_stop (cfg : EngineCfg) (problem : String) (t : ℝ)
    (fuel : ℕ) (st : IterSt) (st' : IterSt)
    (h : iterStep cfg problem t st = Except.ok (none, st')) :
    runIteratorAll cfg problem t (fuel + 1) st = Except.ok ([], st') := by
  rw [runIteratorAll]
  simp only [h]

/-- The iterator's angle loop executes exactly the given angles, registers
each result once, and never grows its worklist. -/
theorem iterExecute_spec (exec : Angle → KnowledgeGraph → AngleResult)
    (angles : List Angle) :
    ∀ (kg : KnowledgeGraph) (results0 : List AngleResult),
    ∃ kg' newRs, iterExecute exec angles kg results0 = (kg', results0 ++ newRs) ∧
      newRs.length = angles.length ∧
      kg'.failed_approaches = kg.failed_approaches ++
        (newRs.filter (fun r => !r.has_signal)).map (fun r => r.angle.id) := by
  induction angles with
  | nil => intro kg results0; exact ⟨kg, [], by simp [iterExecute], rfl, by simp⟩
  | cons a rest ih =>
    intro kg results0
    obtain ⟨kg', rs', heq, hlen, hfail⟩ :=
      ih ((kg.add_angle a).add_result (exec a (kg.add_angle a)))
        (results0 ++ [exec a (kg.add_angle a)])
    refine ⟨kg', exec a (kg.add_angle a) :: rs', ?_, by simp [hlen], ?_⟩
    · rw [iterExecute, heq]
      simp
    · rw [hfail]
      have h1 : ((kg.add_angle a).add_result
            (exec a (kg.add_angle a))).failed_approaches =
          if (exec a (kg.add_angle a)).has_signal then kg.failed_approaches
          else kg.failed_approaches ++ [(exec a (kg.add_angle a)).angle.id] :=
        rfl
      rw [h1]
      cases hsig : (exec a (kg.add_angle a)).has_signal with
      | true => simp [hsig, List.filter_cons]
      | false => simp [hsig, List.filter_cons]

/-- Synthesizing discoveries only adds to the `discoveries` dictionary; the
failed-approaches list is untouched. -/
theorem synthesizeAll_failed (ds : List AngleResult) :
    ∀ (kg : KnowledgeGraph) (acc : List Discovery) (ctr : ℕ),
    (ds.foldl (fun acc r =>
        let (d, c') := synthesizeDiscovery r acc.2.2
        (acc.1.add_discovery d, acc.2.1 ++ [d], c'))
      (kg, acc, ctr)).1.failed_approaches = kg.failed_approaches := by
  induction ds with
  | nil => intro kg acc ctr; rfl
  | cons d rest ih =>
    intro kg acc ctr
    simpa [KnowledgeGraph.add_discovery] using
      ih (kg.add_discovery (synthesizeDiscovery d ctr).1)
        (acc ++ [(synthesizeDiscovery d ctr).1]) (synthesizeDiscovery d ctr).2

/-- Counterexample to claim C5 as stated: with identical inputs, generator,
executor and checker, the blocking driver and the iterator driver do not
produce equivalent per-iteration behaviour — after the single iteration
the blocking `run` has merged its results a second time (duplicating the
failed id), while `run_iterator` has not. -/
theorem C5_counterexample :
    ∃ rep snaps stI,
      run cfgNoSignalMax1 "P" ((61:ℝ)/1000) "partially_explored" "moderate"
        "moderately_constrained" "some_attempts" none 0 0 = Except.ok rep ∧
      runIteratorAll cfgNoSignalMax1 "P" ((61:ℝ)/1000) 2
        (iterInit "P" none "partially_explored" "moderate"
          "moderately_constrained" "some_attempts" 0) =
        Except.ok (snaps, stI) ∧
      snaps.length = 1 ∧
      rep.iterations = 2 ∧ stI.current_iteration = 2 ∧
      rep.knowledge.failed_approaches = ["a0", "a0"] ∧
      stI.knowledge.failed_approaches = ["a0"] := by
  have hb1 : runBodyAfterN cfgNoSignalMax1 "P" ((61:ℝ)/1000) 0
      { stRun0 with current_iteration := stRun0.current_iteration + 1 }
      ((61:ℚ)/1000) 1 = Except.ok (Sum.inl stRun1) := by
    rw [runBodyAfterN_via _ _ _ _ _ _ _
      { angles := [("a0", aFix)], results := [("a0", rFixNoSignal)]
        discoveries := [], failed_approaches := ["a0"]
        domain_knowledge := [("problem", "P")], connections := [] }
      [rFixNoSignal] 0
      (by rw [processWorklist_no_signal _ _ _ _ (fun a ha kg => rfl) _ _ _]
          rfl)]
    rfl
  have h0 : run cfgNoSignalMax1 "P" ((61:ℝ)/1000) "partially_explored"
      "moderate" "moderately_constrained" "some_attempts" none 0 0 =
      (match runLoop cfgNoSignalMax1 "P" ((61:ℝ)/1000) 0 (1 + 1) stRun0 with
        | Except.error e => Except.error e
        | Except.ok st => Except.ok (mkReport "P" st)) := rfl
  have s1 : runLoop cfgNoSignalMax1 "P" ((61:ℝ)/1000) 0 (1 + 1) stRun0 =
      runLoop cfgNoSignalMax1 "P" ((61:ℝ)/1000) 0 1 stRun1 := by
    rw [runLoop_step_body cfgNoSignalMax1 "P" ((61:ℝ)/1000) 0 1 stRun0
      ((61:ℚ)/1000) 1 rfl (by decide) rfl estimate_defaults_eval
      calc_eval_p61, hb1]
  have s2 : runLoop cfgNoSignalMax1 "P" ((61:ℝ)/1000) 0 1 stRun1 =
      Except.ok { stRun1 with
        current_iteration := 2, state := DiscoveryState.exhausted } := by
    rw [show (1:ℕ) = 0 + 1 from rfl,
      runLoop_step_exhaust cfgNoSignalMax1 "P" ((61:ℝ)/1000) 0 0 stRun1
        rfl (by decide)]
    rfl
  have hi1 : iterStep cfgNoSignalMax1 "P" ((61:ℝ)/1000)
      (iterInit "P" none "partially_explored" "moderate"
        "moderately_constrained" "some_attempts" 0) =
      Except.ok (some itSnap1, itSt1) := by
    rw [iterStep_body cfgNoSignalMax1 "P" ((61:ℝ)/1000)
      (iterInit "P" none "partially_explored" "moderate"
        "moderately_constrained" "some_attempts" 0)
      ((61:ℚ)/1000) 1 rfl (by decide) estimate_defaults_eval calc_eval_p61]
    rfl
  have hi2 : iterStep cfgNoSignalMax1 "P" ((61:ℝ)/1000) itSt1 =
      Except.ok (none, { itSt1 with
        current_iteration := 2, state := DiscoveryState.exhausted }) := by
    rw [iterStep_exhaust cfgNoSignalMax1 "P" ((61:ℝ)/1000) itSt1 rfl
      (by decide)]
    rfl
  have hiter : runIteratorAll cfgNoSignalMax1 "P" ((61:ℝ)/1000) 2
      (iterInit "P" none "partially_explored" "moderate"
        "moderately_constrained" "some_attempts" 0) =
      Except.ok ([itSnap1], { itSt1 with
        current_iteration := 2, state := DiscoveryState.exhausted }) := by
    rw [show (2:ℕ) = (0 + 1) + 1 from rfl,
      runIteratorAll_yield _ _ _ (0 + 1) _ _ _ hi1,
      runIteratorAll_stop _ _ _ 0 _ _ hi2]
  refine ⟨mkReport "P" { stRun1 with
      current_iteration := 2, state := DiscoveryState.exhausted },
    [itSnap1], { itSt1 with
      current_iteration := 2, state := DiscoveryState.exhausted },
    ?_, hiter, rfl, rfl, rfl, rfl, rfl⟩
  rw [h0, s1, s2]

/-- Synthesizing discoveries leaves the failed-approaches list alone. -/
theorem synthesizeAll_failed_eq (ds : List AngleResult) (kg : KnowledgeGraph)
    (ctr : ℕ) :
    (synthesizeAll ds kg ctr).1.failed_approaches = kg.failed_approaches := by
  unfold synthesizeAll
  exact synthesizeAll_failed ds kg [] ctr

/-- Structure of one iterator-iteration body: it executes exactly the
generated angles (the worklist never grows), keeps the qualitative
descriptors, and registers each result's failure exactly once. -/
theorem iterBodyAfterN_spec (cfg : EngineCfg) (problem : String) (t : ℝ)
    (st : IterSt) (p : ℚ) (n : ℤ) :
    ∃ results : List AngleResult,
      results.length = (generateDispatch cfg.angle_generator problem
        st.knowledge n.toNat st.ctr).1.length ∧
      (iterBodyAfterN cfg problem t st p n).1.iteration =
        st.current_iteration ∧
      (iterBodyAfterN cfg problem t st p n).2.current_iteration =
        st.current_iteration ∧
      (iterBodyAfterN cfg problem t st p n).1.angles_executed =
        (generateDispatch cfg.angle_generator problem st.knowledge n.toNat
          st.ctr).1.length ∧
      (iterBodyAfterN cfg problem t st p n).2.novelty = st.novelty ∧
      (iterBodyAfterN cfg problem t st p n).2.data_availability =
        st.data_availability ∧
      (iterBodyAfterN cfg problem t st p n).2.constraint_level =
        st.constraint_level ∧
      (iterBodyAfterN cfg problem t st p n).2.prior_work = st.prior_work ∧
      (iterBodyAfterN cfg problem t st p n).2.knowledge.failed_approaches =
        st.knowledge.failed_approaches ++
          (results.filter (fun r => !r.has_signal)).map
            (fun r => r.angle.id) := by
  obtain ⟨kg', newRs, heq, hlen, hfail⟩ := iterExecute_spec cfg.angle_executor
    (generateDispatch cfg.angle_generator problem st.knowledge n.toNat
      st.ctr).1 st.knowledge []
  refine ⟨newRs, hlen, ?_, ?_, ?_, ?_, ?_, ?_, ?_, ?_⟩ <;>
    simp [iterBodyAfterN, heq, hlen, hfail, synthesizeAll_failed_eq]

/-- The estimator's output, cast to ℝ, is a valid probability. -/
theorem estimate_real_bounds (nov da cl pw : String) (cf : List (String × ℚ)) :
    (0:ℝ) < ((estimate nov da cl pw cf : ℚ) : ℝ) ∧
      ((estimate nov da cl pw cf : ℚ) : ℝ) < 1 := by
  constructor
  · exact_mod_cast lt_of_lt_of_le (by norm_num) (estimate_ge nov da cl pw cf)
  · exact_mod_cast lt_of_le_of_lt (estimate_le nov da cl pw cf) (by norm_num)

/-- Claim C5 (amended): each resumption of `run_iterator` performs exactly
one loop iteration — estimate `p`, compute `n`, generate, execute,
synthesize, check — and yields a snapshot; but unlike the blocking `run`
driver it executes exactly the generated angles with NO branching on
signal, performs NO qualitative-descriptor adjustment, and does NO
end-of-iteration merge (each result's failure is registered exactly once),
so the two drivers are not equivalent in general. -/
theorem C5_iterator_one_iteration (cfg : EngineCfg) (problem : String)
    (t : ℝ) (st : IterSt)
    (hrun : st.state = DiscoveryState.running)
    (hle : st.current_iteration + 1 ≤ cfg.max_iterations)
    (ht0 : 0 < t) (ht1 : t < 1) :
    ∃ (n : ℤ) (snap : IterSnapshot) (st' : IterSt)
      (results : List AngleResult),
      calculate_angles_needed
        ((estimate st.novelty st.data_availability st.constraint_level
          st.prior_work [] : ℚ) : ℝ) t = Except.ok n ∧
      iterStep cfg problem t st = Except.ok (some snap, st') ∧
      snap.iteration = st.current_iteration + 1 ∧
      st'.current_iteration = st.current_iteration + 1 ∧
      snap.angles_executed = (generateDispatch cfg.angle_generator problem
        st.knowledge n.toNat st.ctr).1.length ∧
      results.length = (generateDispatch cfg.angle_generator problem
        st.knowledge n.toNat st.ctr).1.length ∧
      st'.novelty = st.novelty ∧
      st'.data_availability = st.data_availability ∧
      st'.constraint_level = st.constraint_level ∧
      st'.prior_work = st.prior_work ∧
      st'.knowledge.failed_approaches = st.knowledge.failed_approaches ++
        (results.filter (fun r => !r.has_signal)).map
          (fun r => r.angle.id) := by
  obtain ⟨hp0, hp1⟩ := estimate_real_bounds st.novelty st.data_availability
    st.constraint_level st.prior_work []
  have hcan := calculate_angles_needed_valid _ t hp0 hp1 ht0 ht1
  have hstep := iterStep_body cfg problem t st _ _ hrun hle rfl hcan
  obtain ⟨results, hlen, h1, h2, h3, h4, h5, h6, h7, h8⟩ :=
    iterBodyAfterN_spec cfg problem t
      { st with current_iteration := st.current_iteration + 1 }
      (estimate st.novelty st.data_availability st.constraint_level
        st.prior_work [])
      (max 1 ⌈Real.log (1 - t) / Real.log
        (1 - ((estimate st.novelty st.data_availability st.constraint_level
          st.prior_work [] : ℚ) : ℝ))⌉)
  refine ⟨_, _, _, results, hcan, hstep, ?_, ?_, ?_, ?_, ?_, ?_, ?_, ?_, ?_⟩
  · simpa using h1
  · simpa using h2
  · simpa using h3
  · simpa using hlen
  · simpa using h4
  · simpa using h5
  · simpa using h6
  · simpa using h7
  · simpa using h8

/-- Witness for C5 (amended) at a concrete engine and iterator state. -/
theorem C5_iterator_one_iteration_witness :
    ∃ (snap : IterSnapshot) (st' : IterSt),
      iterStep cfgNoSignalMax1 "P" ((61:ℝ)/1000)
        (iterInit "P" none "partially_explored" "moderate"
          "moderately_constrained" "some_attempts" 0) =
        Except.ok (some snap, st') ∧
      snap.iteration = 1 ∧ st'.novelty = "partially_explored" := by
  obtain ⟨-, snap, st', results, -, hstep, hiter, -, -, -, hnov, -⟩ :=
    C5_iterator_one_iteration cfgNoSignalMax1 "P" ((61:ℝ)/1000)
      (iterInit "P" none "partially_explored" "moderate"
        "moderately_constrained" "some_attempts" 0)
      rfl (by decide) (by norm_num) (by norm_num)
  exact ⟨snap, st', hstep, by rw [hiter]; rfl, by rw [hnov]; rfl⟩

/-- One branching step of the worklist loop in `DiscoveryEngine.run`: on a
signalling result under the default generator the engine computes
`10 + int(signal_strength * 10)` branch angles and appends them to the
worklist consumed by the same iteration. -/
theorem processWorklist_branch_step
    (exec : Angle → KnowledgeGraph → AngleResult)
    (bf : ℕ) (a : Angle) (rest : List Angle) (kg : KnowledgeGraph)
    (results : List AngleResult) (ctr : ℕ)
    (hsig : (exec a (kg.add_angle a)).has_signal = true) :
    processWorklist GeneratorImpl.defaultGen exec (bf + 1) (a :: rest) kg
      results ctr =
    processWorklist GeneratorImpl.defaultGen exec bf
      (rest ++ (branch_on_discovery (exec a (kg.add_angle a))
        ((10 + pyInt ((exec a (kg.add_angle a)).signal_strength * 10)).toNat)
        ctr).1)
      ((kg.add_angle a).add_result (exec a (kg.add_angle a)))
      (results ++ [exec a (kg.add_angle a)])
      (branch_on_discovery (exec a (kg.add_angle a))
        ((10 + pyInt ((exec a (kg.add_angle a)).signal_strength * 10)).toNat)
        ctr).2 := by
  rw [processWorklist.eq_def]
  simp only [hsig, if_true]

/-- The brancher returns exactly the requested number of follow-ups. -/
theorem branch_on_discovery_length (r : AngleResult) (count ctr : ℕ) :
    (branch_on_discovery r count ctr).1.length = count := by
  simp [branch_on_discovery]

/-- Claim C3 (amended): in `DiscoveryEngine.run`, for every executed angle
whose result signals with strength `s ≥ 0`, the engine immediately
requests exactly `10 + int(10·s)` branch angles — `int()` truncation,
i.e. `⌊10·s⌋`, not `round(10·s)` — from the default generator and appends
them to the same iteration's worklist, which the same worklist pass keeps
consuming. -/
theorem C3_branch_count_truncates
    (exec : Angle → KnowledgeGraph → AngleResult)
    (bf : ℕ) (a : Angle) (rest : List Angle) (kg : KnowledgeGraph)
    (results : List AngleResult) (ctr : ℕ)
    (hsig : (exec a (kg.add_angle a)).has_signal = true)
    (hs0 : 0 ≤ (exec a (kg.add_angle a)).signal_strength) :
    ∃ (branches : List Angle) (ctr' : ℕ),
      branch_on_discovery (exec a (kg.add_angle a))
        ((10 + pyInt ((exec a (kg.add_angle a)).signal_strength * 10)).toNat)
        ctr = (branches, ctr') ∧
      branches.length =
        10 + (⌊(exec a (kg.add_angle a)).signal_strength * 10⌋).toNat ∧
      processWorklist GeneratorImpl.defaultGen exec (bf + 1) (a :: rest) kg
        results ctr =
      processWorklist GeneratorImpl.defaultGen exec bf (rest ++ branches)
        ((kg.add_angle a).add_result (exec a (kg.add_angle a)))
        (results ++ [exec a (kg.add_angle a)]) ctr' := by
  have hs10 : (0:ℚ) ≤ (exec a (kg.add_angle a)).signal_strength * 10 := by
    positivity
  have hpy : pyInt ((exec a (kg.add_angle a)).signal_strength * 10) =
      ⌊(exec a (kg.add_angle a)).signal_strength * 10⌋ := if_pos hs10
  have htn : ((10:ℤ) + ⌊(exec a (kg.add_angle a)).signal_strength * 10⌋).toNat
      = 10 + (⌊(exec a (kg.add_angle a)).signal_strength * 10⌋).toNat := by
    have hfl : (0:ℤ) ≤ ⌊(exec a (kg.add_angle a)).signal_strength * 10⌋ :=
      Int.floor_nonneg.mpr hs10
    omega
  refine ⟨(branch_on_discovery (exec a (kg.add_angle a))
      ((10 + pyInt ((exec a (kg.add_angle a)).signal_strength * 10)).toNat)
      ctr).1,
    (branch_on_discovery (exec a (kg.add_angle a))
      ((10 + pyInt ((exec a (kg.add_angle a)).signal_strength * 10)).toNat)
      ctr).2,
    rfl, ?_, processWorklist_branch_step exec bf a rest kg results ctr hsig⟩
  rw [branch_on_discovery_length, hpy, htn]

/-- Witness for C3 (amended) at signal strength 0.35: exactly
`10 + ⌊3.5⌋ = 13` branch angles are appended. -/
theorem C3_branch_count_truncates_witness :
    ∃ (branches : List Angle) (ctr' : ℕ),
      branch_on_discovery (execSignal35 aFix (KnowledgeGraph.empty.add_angle
          aFix))
        ((10 + pyInt ((execSignal35 aFix
          (KnowledgeGraph.empty.add_angle aFix)).signal_strength * 10)).toNat)
        0 = (branches, ctr') ∧
      branches.length = 13 ∧
      processWorklist GeneratorImpl.defaultGen execSignal35 1 [aFix]
        KnowledgeGraph.empty [] 0 =
      processWorklist GeneratorImpl.defaultGen execSignal35 0 branches
        ((KnowledgeGraph.empty.add_angle aFix).add_result
          (execSignal35 aFix (KnowledgeGraph.empty.add_angle aFix)))
        [execSignal35 aFix (KnowledgeGraph.empty.add_angle aFix)] ctr' := by
  obtain ⟨branches, ctr', hpair, hlen, hstep⟩ :=
    C3_branch_count_truncates execSignal35 0 aFix [] KnowledgeGraph.empty []
      0 rfl (by norm_num [execSignal35, aFix])
  refine ⟨branches, ctr', hpair, ?_, by simpa using hstep⟩
  rw [hlen]
  norm_num [execSignal35, aFix]
  decide

/-- Counterexample to claim C3 as stated: a signalling result with
strength 0.35 makes the engine append 13 branch angles (14 angles total in
the graph), whereas the claimed `10 + round(10·0.35) = 14` branch angles
would have left 15. -/
theorem C3_counterexample_round :
    ∃ (kg : KnowledgeGraph) (results : List AngleResult) (c : ℕ),
      processWorklist GeneratorImpl.defaultGen execSignal35 1 [aFix]
        KnowledgeGraph.empty [] 0 = Except.ok (kg, results, c) ∧
      kg.angles.length = 14 ∧
      (1 : ℤ) + (10 + round ((35:ℚ)/100 * 10)) ≠ 14 := by
  have hs : (execSignal35 aFix
      (KnowledgeGraph.empty.add_angle aFix)).signal_strength = 35/100 := rfl
  have hbc : ((10:ℤ) + pyInt ((35:ℚ)/100 * 10)).toNat = 13 := by
    norm_num [pyInt]
    decide
  rw [show (1:ℕ) = 0 + 1 from rfl,
    processWorklist_branch_step execSignal35 0 aFix [] KnowledgeGraph.empty
      [] 0 rfl, hs, hbc]
  have hnos : ∀ x ∈ ([] ++ (branch_on_discovery (execSignal35 aFix
      (KnowledgeGraph.empty.add_angle aFix)) 13 0).1), ∀ k : KnowledgeGraph,
      (execSignal35 x k).has_signal = false := by
    have hpid : ∀ x ∈ ([] ++ (branch_on_discovery (execSignal35 aFix
        (KnowledgeGraph.empty.add_angle aFix)) 13 0).1),
        x.parent_id = some "a0" := by decide
    intro x hx k
    simp [execSignal35, hpid x hx]
  rw [processWorklist_no_signal _ _ _ _ hnos _ _ _]
  refine ⟨_, _, _, rfl, by decide, by norm_num [round_eq]⟩

/-- Claim C4 (amended): `resume` with no checkpoint argument and no stored
checkpoint fails with the invalid-argument error; when a checkpoint is
available (argument or stored), `resume` re-enters `run` with the
checkpoint's problem and target confidence and the engine's current
in-memory knowledge graph — the checkpoint's serialized knowledge graph is
NOT deserialized or restored (`_load_checkpoint` restores only the
iteration counter, which `run` then resets). -/
theorem C4_resume_uses_memory_knowledge (eng : Engine) (cp : Checkpoint)
    (bf c0 : ℕ) :
    (eng.checkpoint = none →
      resume eng none bf c0 =
        Except.error "No checkpoint available to resume from") ∧
    (resume eng (some cp) bf c0 =
      run eng.cfg cp.problem cp.target_confidence "partially_explored"
        "moderate" "moderately_constrained" "some_attempts" eng.knowledge
        bf c0) ∧
    (eng.checkpoint = some cp →
      resume eng none bf c0 =
        run eng.cfg cp.problem cp.target_confidence "partially_explored"
          "moderate" "moderately_constrained" "some_attempts" eng.knowledge
          bf c0) := by
  refine ⟨fun h => ?_, rfl, fun h => ?_⟩
  · simp only [resume, h]
  · simp only [resume, h]

/-- Witness for C4 (amended): a fresh engine with no stored checkpoint
fails to resume. -/
theorem C4_resume_uses_memory_knowledge_witness :
    resume engFresh none 0 0 =
      Except.error "No checkpoint available to resume from" :=
  (C4_resume_uses_memory_knowledge engFresh cpStored 0 0).1 rfl

/-- Counterexample to claim C4 as stated: resuming a fresh engine from a
checkpoint whose serialized knowledge graph contains an angle yields a run
whose knowledge graph contains no angle at all — the recorded graph was
not restored. -/
theorem C4_counterexample :
    ∃ rep, resume engFresh (some cpStored) 0 0 = Except.ok rep ∧
      rep.state = DiscoveryState.exhausted ∧
      rep.knowledge.angles = [] ∧
      cpStored.knowledge = some kgWithA.to_dict ∧
      kgWithA.to_dict.angles ≠ [] := by
  have h0 : resume engFresh (some cpStored) 0 0 =
      (match runLoop cfgMax0 "P" ((1:ℝ)/2) 0 (0 + 1) stRun0 with
        | Except.error e => Except.error e
        | Except.ok st => Except.ok (mkReport "P" st)) := rfl
  have s1 : runLoop cfgMax0 "P" ((1:ℝ)/2) 0 (0 + 1) stRun0 =
      Except.ok { stRun0 with
        current_iteration := 1, state := DiscoveryState.exhausted } := by
    rw [runLoop_step_exhaust cfgMax0 "P" ((1:ℝ)/2) 0 0 stRun0 rfl (by decide)]
    rfl
  refine ⟨mkReport "P" { stRun0 with
      current_iteration := 1, state := DiscoveryState.exhausted },
    by rw [h0, s1], rfl, rfl, rfl, by decide⟩

end Crowbar
